import Mathlib

/-!
Geany keybindings: registry, loader and dispatch engine.

A shallow embedding of `src/keybindings.c`.  Global variables of the C program
(`keybinding_groups`, the widget focus, the notebook, `prefs`, the VTE
configuration) become explicit arguments; calls into collaborators (callbacks,
`gtk_notebook_set_current_page`, `gtk_widget_set_sensitive`, `g_idle_add`) are
recorded, in program order, in a list of `Action`s.  Code that dereferences a
null pointer, indexes a pointer array out of bounds or fails `g_assert` returns a
`Fault`.
-/

namespace Keybindings

deriving instance DecidableEq for Except

/-! ## Constants of GDK (`gdktypes.h`, `gdkkeysyms.h`) -/

def GDK_SHIFT_MASK : Nat := 1
def GDK_LOCK_MASK : Nat := 2
def GDK_CONTROL_MASK : Nat := 4
def GDK_MOD1_MASK : Nat := 8

def GDK_space : Nat := 0x020
def GDK_plus : Nat := 0x02b
def GDK_comma : Nat := 0x02c
def GDK_minus : Nat := 0x02d
def GDK_period : Nat := 0x02e
def GDK_0 : Nat := 0x030
def GDK_1 : Nat := 0x031
def GDK_2 : Nat := 0x032
def GDK_3 : Nat := 0x033
def GDK_9 : Nat := 0x039
def GDK_A : Nat := 0x041
def GDK_N : Nat := 0x04e
def GDK_R : Nat := 0x052
def GDK_S : Nat := 0x053
def GDK_Z : Nat := 0x05a
def GDK_a : Nat := 0x061
def GDK_b : Nat := 0x062
def GDK_c : Nat := 0x063
def GDK_d : Nat := 0x064
def GDK_e : Nat := 0x065
def GDK_f : Nat := 0x066
def GDK_g : Nat := 0x067
def GDK_h : Nat := 0x068
def GDK_i : Nat := 0x069
def GDK_k : Nat := 0x06b
def GDK_l : Nat := 0x06c
def GDK_m : Nat := 0x06d
def GDK_n : Nat := 0x06e
def GDK_o : Nat := 0x06f
def GDK_p : Nat := 0x070
def GDK_r : Nat := 0x072
def GDK_s : Nat := 0x073
def GDK_t : Nat := 0x074
def GDK_u : Nat := 0x075
def GDK_v : Nat := 0x076
def GDK_w : Nat := 0x077
def GDK_x : Nat := 0x078
def GDK_y : Nat := 0x079
def GDK_z : Nat := 0x07a
def GDK_Tab : Nat := 0xFF09
def GDK_Return : Nat := 0xFF0D
def GDK_Up : Nat := 0xFF52
def GDK_Down : Nat := 0xFF54
def GDK_Page_Up : Nat := 0xFF55
def GDK_Page_Down : Nat := 0xFF56
def GDK_F1 : Nat := 0xFFBE
def GDK_F2 : Nat := 0xFFBF
def GDK_F4 : Nat := 0xFFC1
def GDK_F5 : Nat := 0xFFC2
def GDK_F6 : Nat := 0xFFC3
def GDK_F7 : Nat := 0xFFC4
def GDK_F8 : Nat := 0xFFC5
def GDK_F9 : Nat := 0xFFC6
def GDK_F11 : Nat := 0xFFC8
def GDK_F35 : Nat := 0xFFE0

/-! ## Declarations of `keybindings.h` -/

/-- Modelled from the spec: the macro `GEANY_KEYS_MODIFIER_MASK` is declared in
`keybindings.h`, which is not among the sources.  The spec (4.5) says the raw
modifiers are masked "down to the four recognized bits {Control, Shift, Alt,
Lock}". -/
def GEANY_KEYS_MODIFIER_MASK : Nat :=
  GDK_CONTROL_MASK ||| GDK_SHIFT_MASK ||| GDK_MOD1_MASK ||| GDK_LOCK_MASK

/-- The forward declarations `static void cb_func_...(guint key_id)` of
`keybindings.c`, lines 56-107: the values a `KBCallback` pointer takes. -/
inductive KBCallback
  | cb_func_file_action
  | cb_func_menu_print
  | cb_func_menu_undo
  | cb_func_menu_redo
  | cb_func_clipboard
  | cb_func_menu_selectall
  | cb_func_menu_help
  | cb_func_menu_preferences
  | cb_func_menu_insert_date
  | cb_func_menu_search
  | cb_func_menu_toggle_all
  | cb_func_menu_fullscreen
  | cb_func_menu_messagewindow
  | cb_func_menu_zoomin
  | cb_func_menu_zoomout
  | cb_func_menu_replacetabs
  | cb_func_menu_foldall
  | cb_func_menu_unfoldall
  | cb_func_reloadtaglist
  | cb_func_menu_opencolorchooser
  | cb_func_menu_insert_specialchars
  | cb_func_build_action
  | cb_func_switch_editor
  | cb_func_switch_scribble
  | cb_func_switch_vte
  | cb_func_switch_search_bar
  | cb_func_switch_tableft
  | cb_func_switch_tabright
  | cb_func_switch_tablastused
  | cb_func_move_tab
  | cb_func_nav_back
  | cb_func_nav_forward
  | cb_func_toggle_sidebar
  | cb_func_editing_global
  | cb_func_editing
  | cb_func_tags
  | cb_func_current_word
deriving DecidableEq, Repr

/-- The record `KeyBinding`.  `name` and `label` are C strings that may be `NULL`
(`none`), `cb_func` is a function pointer that may be `NULL` (`none`). -/
structure KeyBinding where
  key : Nat
  mods : Nat
  name : Option String
  label : Option String
  cb_func : Option KBCallback
deriving DecidableEq, Repr

/-- The record `KeyBindingGroup`.  The C fields `count` and `keys` (an array of
`count` bindings) are one list; `count` is its length. -/
structure KeyBindingGroup where
  name : String
  label : String
  keys : List KeyBinding
deriving DecidableEq, Repr

/-- The field `count` of a group. -/
def KeyBindingGroup.count (group : KeyBindingGroup) : Nat := group.keys.length

/-- The global `keybinding_groups`: the array of groups, in insertion order. -/
abbrev Registry := List KeyBindingGroup

/-! Modelled from the spec: the enumerations of group ids and of command ids
(`GEANY_KEYGROUP_...`, `GEANY_KEYS_...`) are declared in `keybindings.h`, which is
not among the sources.  The spec (3) says a command id is the "dense zero-based
index" of the binding within its group and a group id the index of the group in
declaration order; the enumerators below are numbered in the order in which
`init_default_kb` registers them. -/

/-- Modelled from the spec: enumerator of `keybindings.h`, numbered in registration order. -/
def GEANY_KEYGROUP_FILE : Nat := 0
/-- Modelled from the spec: enumerator of `keybindings.h`, numbered in registration order. -/
def GEANY_KEYGROUP_EDIT : Nat := 1
/-- Modelled from the spec: enumerator of `keybindings.h`, numbered in registration order. -/
def GEANY_KEYGROUP_SEARCH : Nat := 2
/-- Modelled from the spec: enumerator of `keybindings.h`, numbered in registration order. -/
def GEANY_KEYGROUP_VIEW : Nat := 3
/-- Modelled from the spec: enumerator of `keybindings.h`, numbered in registration order. -/
def GEANY_KEYGROUP_DOCUMENT : Nat := 4
/-- Modelled from the spec: enumerator of `keybindings.h`, numbered in registration order. -/
def GEANY_KEYGROUP_BUILD : Nat := 5
/-- Modelled from the spec: enumerator of `keybindings.h`, numbered in registration order. -/
def GEANY_KEYGROUP_TOOLS : Nat := 6
/-- Modelled from the spec: enumerator of `keybindings.h`, numbered in registration order. -/
def GEANY_KEYGROUP_HELP : Nat := 7
/-- Modelled from the spec: enumerator of `keybindings.h`, numbered in registration order. -/
def GEANY_KEYGROUP_FOCUS : Nat := 8
/-- Modelled from the spec: enumerator of `keybindings.h`, numbered in registration order. -/
def GEANY_KEYGROUP_NOTEBOOK : Nat := 9
/-- Modelled from the spec: enumerator of `keybindings.h`, numbered in registration order. -/
def GEANY_KEYGROUP_EDITING : Nat := 10
/-- Modelled from the spec: enumerator of `keybindings.h`, numbered in registration order. -/
def GEANY_KEYGROUP_TAGS : Nat := 11
/-- Modelled from the spec: enumerator of `keybindings.h`, numbered in registration order. -/
def GEANY_KEYGROUP_OTHER : Nat := 12
/-- Modelled from the spec: enumerator of `keybindings.h`, numbered in registration order. -/
def GEANY_KEYGROUP_COUNT : Nat := 13

/-- Modelled from the spec: enumerator of `keybindings.h`, numbered in registration order. -/
def GEANY_KEYS_MENU_NEW : Nat := 0
/-- Modelled from the spec: enumerator of `keybindings.h`, numbered in registration order. -/
def GEANY_KEYS_MENU_OPEN : Nat := 1
/-- Modelled from the spec: enumerator of `keybindings.h`, numbered in registration order. -/
def GEANY_KEYS_MENU_OPENSELECTED : Nat := 2
/-- Modelled from the spec: enumerator of `keybindings.h`, numbered in registration order. -/
def GEANY_KEYS_MENU_SAVE : Nat := 3
/-- Modelled from the spec: enumerator of `keybindings.h`, numbered in registration order. -/
def GEANY_KEYS_MENU_SAVEAS : Nat := 4
/-- Modelled from the spec: enumerator of `keybindings.h`, numbered in registration order. -/
def GEANY_KEYS_MENU_SAVEALL : Nat := 5
/-- Modelled from the spec: enumerator of `keybindings.h`, numbered in registration order. -/
def GEANY_KEYS_MENU_PRINT : Nat := 6
/-- Modelled from the spec: enumerator of `keybindings.h`, numbered in registration order. -/
def GEANY_KEYS_MENU_CLOSE : Nat := 7
/-- Modelled from the spec: enumerator of `keybindings.h`, numbered in registration order. -/
def GEANY_KEYS_MENU_CLOSEALL : Nat := 8
/-- Modelled from the spec: enumerator of `keybindings.h`, numbered in registration order. -/
def GEANY_KEYS_MENU_RELOADFILE : Nat := 9
/-- Modelled from the spec: enumerator of `keybindings.h`, numbered in registration order. -/
def GEANY_KEYS_MENU_PROJECTPROPERTIES : Nat := 10
/-- Modelled from the spec: enumerator of `keybindings.h`, numbered in registration order. -/
def GEANY_KEYS_FILE_COUNT : Nat := 11

/-- Modelled from the spec: enumerator of `keybindings.h`, numbered in registration order. -/
def GEANY_KEYS_MENU_UNDO : Nat := 0
/-- Modelled from the spec: enumerator of `keybindings.h`, numbered in registration order. -/
def GEANY_KEYS_MENU_REDO : Nat := 1
/-- Modelled from the spec: enumerator of `keybindings.h`, numbered in registration order. -/
def GEANY_KEYS_MENU_CUT : Nat := 2
/-- Modelled from the spec: enumerator of `keybindings.h`, numbered in registration order. -/
def GEANY_KEYS_MENU_COPY : Nat := 3
/-- Modelled from the spec: enumerator of `keybindings.h`, numbered in registration order. -/
def GEANY_KEYS_MENU_PASTE : Nat := 4
/-- Modelled from the spec: enumerator of `keybindings.h`, numbered in registration order. -/
def GEANY_KEYS_MENU_SELECTALL : Nat := 5
/-- Modelled from the spec: enumerator of `keybindings.h`, numbered in registration order. -/
def GEANY_KEYS_MENU_INSERTDATE : Nat := 6
/-- Modelled from the spec: enumerator of `keybindings.h`, numbered in registration order. -/
def GEANY_KEYS_MENU_PREFERENCES : Nat := 7
/-- Modelled from the spec: enumerator of `keybindings.h`, numbered in registration order. -/
def GEANY_KEYS_EDIT_COUNT : Nat := 8

/-- Modelled from the spec: enumerator of `keybindings.h`, numbered in registration order. -/
def GEANY_KEYS_MENU_FIND : Nat := 0
/-- Modelled from the spec: enumerator of `keybindings.h`, numbered in registration order. -/
def GEANY_KEYS_MENU_FINDNEXT : Nat := 1
/-- Modelled from the spec: enumerator of `keybindings.h`, numbered in registration order. -/
def GEANY_KEYS_MENU_FINDPREVIOUS : Nat := 2
/-- Modelled from the spec: enumerator of `keybindings.h`, numbered in registration order. -/
def GEANY_KEYS_MENU_FINDNEXTSEL : Nat := 3
/-- Modelled from the spec: enumerator of `keybindings.h`, numbered in registration order. -/
def GEANY_KEYS_MENU_FINDPREVSEL : Nat := 4
/-- Modelled from the spec: enumerator of `keybindings.h`, numbered in registration order. -/
def GEANY_KEYS_MENU_REPLACE : Nat := 5
/-- Modelled from the spec: enumerator of `keybindings.h`, numbered in registration order. -/
def GEANY_KEYS_MENU_FINDINFILES : Nat := 6
/-- Modelled from the spec: enumerator of `keybindings.h`, numbered in registration order. -/
def GEANY_KEYS_MENU_NEXTMESSAGE : Nat := 7
/-- Modelled from the spec: enumerator of `keybindings.h`, numbered in registration order. -/
def GEANY_KEYS_MENU_GOTOLINE : Nat := 8
/-- Modelled from the spec: enumerator of `keybindings.h`, numbered in registration order. -/
def GEANY_KEYS_SEARCH_COUNT : Nat := 9

/-- Modelled from the spec: enumerator of `keybindings.h`, numbered in registration order. -/
def GEANY_KEYS_MENU_TOGGLEALL : Nat := 0
/-- Modelled from the spec: enumerator of `keybindings.h`, numbered in registration order. -/
def GEANY_KEYS_MENU_FULLSCREEN : Nat := 1
/-- Modelled from the spec: enumerator of `keybindings.h`, numbered in registration order. -/
def GEANY_KEYS_MENU_MESSAGEWINDOW : Nat := 2
/-- Modelled from the spec: enumerator of `keybindings.h`, numbered in registration order. -/
def GEANY_KEYS_MENU_SIDEBAR : Nat := 3
/-- Modelled from the spec: enumerator of `keybindings.h`, numbered in registration order. -/
def GEANY_KEYS_MENU_ZOOMIN : Nat := 4
/-- Modelled from the spec: enumerator of `keybindings.h`, numbered in registration order. -/
def GEANY_KEYS_MENU_ZOOMOUT : Nat := 5
/-- Modelled from the spec: enumerator of `keybindings.h`, numbered in registration order. -/
def GEANY_KEYS_VIEW_COUNT : Nat := 6

/-- Modelled from the spec: enumerator of `keybindings.h`, numbered in registration order. -/
def GEANY_KEYS_MENU_REPLACETABS : Nat := 0
/-- Modelled from the spec: enumerator of `keybindings.h`, numbered in registration order. -/
def GEANY_KEYS_MENU_FOLDALL : Nat := 1
/-- Modelled from the spec: enumerator of `keybindings.h`, numbered in registration order. -/
def GEANY_KEYS_MENU_UNFOLDALL : Nat := 2
/-- Modelled from the spec: enumerator of `keybindings.h`, numbered in registration order. -/
def GEANY_KEYS_RELOADTAGLIST : Nat := 3
/-- Modelled from the spec: enumerator of `keybindings.h`, numbered in registration order. -/
def GEANY_KEYS_DOCUMENT_COUNT : Nat := 4

/-- Modelled from the spec: enumerator of `keybindings.h`, numbered in registration order. -/
def GEANY_KEYS_BUILD_COMPILE : Nat := 0
/-- Modelled from the spec: enumerator of `keybindings.h`, numbered in registration order. -/
def GEANY_KEYS_BUILD_LINK : Nat := 1
/-- Modelled from the spec: enumerator of `keybindings.h`, numbered in registration order. -/
def GEANY_KEYS_BUILD_MAKE : Nat := 2
/-- Modelled from the spec: enumerator of `keybindings.h`, numbered in registration order. -/
def GEANY_KEYS_BUILD_MAKEOWNTARGET : Nat := 3
/-- Modelled from the spec: enumerator of `keybindings.h`, numbered in registration order. -/
def GEANY_KEYS_BUILD_MAKEOBJECT : Nat := 4
/-- Modelled from the spec: enumerator of `keybindings.h`, numbered in registration order. -/
def GEANY_KEYS_BUILD_NEXTERROR : Nat := 5
/-- Modelled from the spec: enumerator of `keybindings.h`, numbered in registration order. -/
def GEANY_KEYS_BUILD_RUN : Nat := 6
/-- Modelled from the spec: enumerator of `keybindings.h`, numbered in registration order. -/
def GEANY_KEYS_BUILD_RUN2 : Nat := 7
/-- Modelled from the spec: enumerator of `keybindings.h`, numbered in registration order. -/
def GEANY_KEYS_BUILD_OPTIONS : Nat := 8
/-- Modelled from the spec: enumerator of `keybindings.h`, numbered in registration order. -/
def GEANY_KEYS_BUILD_COUNT : Nat := 9

/-- Modelled from the spec: enumerator of `keybindings.h`, numbered in registration order. -/
def GEANY_KEYS_MENU_OPENCOLORCHOOSER : Nat := 0
/-- Modelled from the spec: enumerator of `keybindings.h`, numbered in registration order. -/
def GEANY_KEYS_MENU_INSERTSPECIALCHARS : Nat := 1
/-- Modelled from the spec: enumerator of `keybindings.h`, numbered in registration order. -/
def GEANY_KEYS_TOOLS_COUNT : Nat := 2

/-- Modelled from the spec: enumerator of `keybindings.h`, numbered in registration order. -/
def GEANY_KEYS_MENU_HELP : Nat := 0
/-- Modelled from the spec: enumerator of `keybindings.h`, numbered in registration order. -/
def GEANY_KEYS_HELP_COUNT : Nat := 1

/-- Modelled from the spec: enumerator of `keybindings.h`, numbered in registration order. -/
def GEANY_KEYS_SWITCH_EDITOR : Nat := 0
/-- Modelled from the spec: enumerator of `keybindings.h`, numbered in registration order. -/
def GEANY_KEYS_SWITCH_SCRIBBLE : Nat := 1
/-- Modelled from the spec: enumerator of `keybindings.h`, numbered in registration order. -/
def GEANY_KEYS_SWITCH_VTE : Nat := 2
/-- Modelled from the spec: enumerator of `keybindings.h`, numbered in registration order. -/
def GEANY_KEYS_SWITCH_SEARCH_BAR : Nat := 3
/-- Modelled from the spec: enumerator of `keybindings.h`, numbered in registration order. -/
def GEANY_KEYS_FOCUS_COUNT : Nat := 4

/-- Modelled from the spec: enumerator of `keybindings.h`, numbered in registration order. -/
def GEANY_KEYS_SWITCH_TABLEFT : Nat := 0
/-- Modelled from the spec: enumerator of `keybindings.h`, numbered in registration order. -/
def GEANY_KEYS_SWITCH_TABRIGHT : Nat := 1
/-- Modelled from the spec: enumerator of `keybindings.h`, numbered in registration order. -/
def GEANY_KEYS_SWITCH_TABLASTUSED : Nat := 2
/-- Modelled from the spec: enumerator of `keybindings.h`, numbered in registration order. -/
def GEANY_KEYS_MOVE_TABLEFT : Nat := 3
/-- Modelled from the spec: enumerator of `keybindings.h`, numbered in registration order. -/
def GEANY_KEYS_MOVE_TABRIGHT : Nat := 4
/-- Modelled from the spec: enumerator of `keybindings.h`, numbered in registration order. -/
def GEANY_KEYS_MOVE_TABFIRST : Nat := 5
/-- Modelled from the spec: enumerator of `keybindings.h`, numbered in registration order. -/
def GEANY_KEYS_MOVE_TABLAST : Nat := 6
/-- Modelled from the spec: enumerator of `keybindings.h`, numbered in registration order. -/
def GEANY_KEYS_NOTEBOOK_COUNT : Nat := 7

/-- Modelled from the spec: enumerator of `keybindings.h`, numbered in registration order. -/
def GEANY_KEYS_EDIT_DUPLICATELINE : Nat := 0
/-- Modelled from the spec: enumerator of `keybindings.h`, numbered in registration order. -/
def GEANY_KEYS_EDIT_DELETELINE : Nat := 1
/-- Modelled from the spec: enumerator of `keybindings.h`, numbered in registration order. -/
def GEANY_KEYS_EDIT_COPYLINE : Nat := 2
/-- Modelled from the spec: enumerator of `keybindings.h`, numbered in registration order. -/
def GEANY_KEYS_EDIT_CUTLINE : Nat := 3
/-- Modelled from the spec: enumerator of `keybindings.h`, numbered in registration order. -/
def GEANY_KEYS_EDIT_TRANSPOSELINE : Nat := 4
/-- Modelled from the spec: enumerator of `keybindings.h`, numbered in registration order. -/
def GEANY_KEYS_EDIT_TOGGLECASE : Nat := 5
/-- Modelled from the spec: enumerator of `keybindings.h`, numbered in registration order. -/
def GEANY_KEYS_EDIT_COMMENTLINETOGGLE : Nat := 6
/-- Modelled from the spec: enumerator of `keybindings.h`, numbered in registration order. -/
def GEANY_KEYS_EDIT_COMMENTLINE : Nat := 7
/-- Modelled from the spec: enumerator of `keybindings.h`, numbered in registration order. -/
def GEANY_KEYS_EDIT_UNCOMMENTLINE : Nat := 8
/-- Modelled from the spec: enumerator of `keybindings.h`, numbered in registration order. -/
def GEANY_KEYS_EDIT_INCREASEINDENT : Nat := 9
/-- Modelled from the spec: enumerator of `keybindings.h`, numbered in registration order. -/
def GEANY_KEYS_EDIT_DECREASEINDENT : Nat := 10
/-- Modelled from the spec: enumerator of `keybindings.h`, numbered in registration order. -/
def GEANY_KEYS_EDIT_INCREASEINDENTBYSPACE : Nat := 11
/-- Modelled from the spec: enumerator of `keybindings.h`, numbered in registration order. -/
def GEANY_KEYS_EDIT_DECREASEINDENTBYSPACE : Nat := 12
/-- Modelled from the spec: enumerator of `keybindings.h`, numbered in registration order. -/
def GEANY_KEYS_EDIT_AUTOINDENT : Nat := 13
/-- Modelled from the spec: enumerator of `keybindings.h`, numbered in registration order. -/
def GEANY_KEYS_EDIT_SENDTOCMD1 : Nat := 14
/-- Modelled from the spec: enumerator of `keybindings.h`, numbered in registration order. -/
def GEANY_KEYS_EDIT_SENDTOCMD2 : Nat := 15
/-- Modelled from the spec: enumerator of `keybindings.h`, numbered in registration order. -/
def GEANY_KEYS_EDIT_SENDTOCMD3 : Nat := 16
/-- Modelled from the spec: enumerator of `keybindings.h`, numbered in registration order. -/
def GEANY_KEYS_EDIT_GOTOMATCHINGBRACE : Nat := 17
/-- Modelled from the spec: enumerator of `keybindings.h`, numbered in registration order. -/
def GEANY_KEYS_EDIT_TOGGLEMARKER : Nat := 18
/-- Modelled from the spec: enumerator of `keybindings.h`, numbered in registration order. -/
def GEANY_KEYS_EDIT_GOTONEXTMARKER : Nat := 19
/-- Modelled from the spec: enumerator of `keybindings.h`, numbered in registration order. -/
def GEANY_KEYS_EDIT_GOTOPREVIOUSMARKER : Nat := 20
/-- Modelled from the spec: enumerator of `keybindings.h`, numbered in registration order. -/
def GEANY_KEYS_EDIT_SELECTWORD : Nat := 21
/-- Modelled from the spec: enumerator of `keybindings.h`, numbered in registration order. -/
def GEANY_KEYS_EDIT_SELECTLINE : Nat := 22
/-- Modelled from the spec: enumerator of `keybindings.h`, numbered in registration order. -/
def GEANY_KEYS_EDIT_SELECTPARAGRAPH : Nat := 23
/-- Modelled from the spec: enumerator of `keybindings.h`, numbered in registration order. -/
def GEANY_KEYS_EDIT_SCROLLTOLINE : Nat := 24
/-- Modelled from the spec: enumerator of `keybindings.h`, numbered in registration order. -/
def GEANY_KEYS_EDIT_SCROLLLINEUP : Nat := 25
/-- Modelled from the spec: enumerator of `keybindings.h`, numbered in registration order. -/
def GEANY_KEYS_EDIT_SCROLLLINEDOWN : Nat := 26
/-- Modelled from the spec: enumerator of `keybindings.h`, numbered in registration order. -/
def GEANY_KEYS_EDIT_INSERTALTWHITESPACE : Nat := 27
/-- Modelled from the spec: enumerator of `keybindings.h`, numbered in registration order. -/
def GEANY_KEYS_POPUP_FINDUSAGE : Nat := 28
/-- Modelled from the spec: enumerator of `keybindings.h`, numbered in registration order. -/
def GEANY_KEYS_POPUP_CONTEXTACTION : Nat := 29
/-- Modelled from the spec: enumerator of `keybindings.h`, numbered in registration order. -/
def GEANY_KEYS_EDITING_COUNT : Nat := 30

/-- Modelled from the spec: enumerator of `keybindings.h`, numbered in registration order. -/
def GEANY_KEYS_EDIT_AUTOCOMPLETE : Nat := 0
/-- Modelled from the spec: enumerator of `keybindings.h`, numbered in registration order. -/
def GEANY_KEYS_EDIT_CALLTIP : Nat := 1
/-- Modelled from the spec: enumerator of `keybindings.h`, numbered in registration order. -/
def GEANY_KEYS_EDIT_MACROLIST : Nat := 2
/-- Modelled from the spec: enumerator of `keybindings.h`, numbered in registration order. -/
def GEANY_KEYS_EDIT_COMPLETESNIPPET : Nat := 3
/-- Modelled from the spec: enumerator of `keybindings.h`, numbered in registration order. -/
def GEANY_KEYS_EDIT_SUPPRESSSNIPPETCOMPLETION : Nat := 4
/-- Modelled from the spec: enumerator of `keybindings.h`, numbered in registration order. -/
def GEANY_KEYS_POPUP_GOTOTAGDEFINITION : Nat := 5
/-- Modelled from the spec: enumerator of `keybindings.h`, numbered in registration order. -/
def GEANY_KEYS_POPUP_GOTOTAGDECLARATION : Nat := 6
/-- Modelled from the spec: enumerator of `keybindings.h`, numbered in registration order. -/
def GEANY_KEYS_TAGS_COUNT : Nat := 7

/-- Modelled from the spec: enumerator of `keybindings.h`, numbered in registration order. -/
def GEANY_KEYS_NAV_BACK : Nat := 0
/-- Modelled from the spec: enumerator of `keybindings.h`, numbered in registration order. -/
def GEANY_KEYS_NAV_FORWARD : Nat := 1
/-- Modelled from the spec: enumerator of `keybindings.h`, numbered in registration order. -/
def GEANY_KEYS_OTHER_COUNT : Nat := 2

/-! ## Ambient state, effects, faults -/

/-- Ways in which the C code leaves defined behaviour. -/
inductive Fault
  | assertion_failed
  | null_dereference
  | out_of_bounds
deriving DecidableEq, Repr

/-- The widget returned by `gtk_window_get_focus(GTK_WINDOW(app->window))`:
the terminal `vc->vte`, the Scintilla widget of the current valid document, or
anything else. -/
inductive FocusWidget
  | vte
  | sci
  | other
deriving DecidableEq, Repr

/-- The process-wide state that the dispatch engine reads. -/
structure Ambient where
  /-- `HAVE_VTE` is compiled in and `vte_info.have_vte` is set. -/
  have_vte : Bool
  /-- `vc->enable_bash_keys`. -/
  enable_bash_keys : Bool
  /-- `gtk_window_get_focus(GTK_WINDOW(app->window))`. -/
  focus : FocusWidget
  /-- `gtk_notebook_get_n_pages(GTK_NOTEBOOK(app->notebook))`. -/
  npages : Int
  /-- `prefs.tab_order_ltr`. -/
  tab_order_ltr : Bool
  /-- `editor_prefs.complete_snippets`. -/
  complete_snippets : Bool
  /-- What `editor_complete_snippet` would answer if it were called. -/
  editor_complete_snippet : Bool
deriving DecidableEq, Repr

/-- The two menus that `check_vte` makes insensitive. -/
inductive MenuWidget
  | menubar1
  | popup_menu
deriving DecidableEq, Repr

/-- Calls into collaborators, recorded in program order. -/
inductive Action
  /-- The call `kb->cb_func(key_id)`. -/
  | cb_func (f : KBCallback) (key_id : Nat)
  /-- The call `gtk_notebook_set_current_page(GTK_NOTEBOOK(app->notebook), page)`. -/
  | notebook_set_current_page (page : Int)
  /-- The call `gtk_widget_set_sensitive(widget, FALSE)`. -/
  | set_insensitive (widget : MenuWidget)
  /-- The call `g_idle_add(&set_sensitive, widget)`. -/
  | idle_add_set_sensitive (widget : MenuWidget)
  /-- The call `editor_complete_snippet(idx, pos)`. -/
  | editor_complete_snippet
deriving DecidableEq, Repr

/-- The fields `keyval` and `state` of a `GdkEventKey`. -/
structure GdkEventKey where
  keyval : Nat
  state : Nat
deriving DecidableEq, Repr

/-! ## Building the registry (`keybindings.c`, lines 49-420) -/

def default_group_name : String := "Bindings"

def swap_alt_tab_order : Bool := false

/-- A binding in zero-initialised static storage. -/
def KeyBinding.zeroed : KeyBinding :=
  { key := 0, mods := 0, name := none, label := none, cb_func := none }

/-- The function `add_kb`: fill slot `kb_id` of `group`; `g_assert` fails when
`kb_id` is not below `group->count`. -/
def add_kb (group : KeyBindingGroup) (kb_id : Nat) (func : Option KBCallback)
    (key mod : Nat) (name label : String) : Except Fault KeyBindingGroup :=
  if kb_id < group.count then
    let kb : KeyBinding :=
      { key := key, mods := mod, name := some name, label := some label, cb_func := func }
    .ok { group with keys := group.keys.set kb_id kb }
  else
    .error .assertion_failed

/-- The function `add_kb_group` on the zero-initialised static array that
`DECLARE_KEYS` declares: the group record it fills in.  Its call of
`g_ptr_array_add` is `g_ptr_array_add` below. -/
def add_kb_group (name label : String) (count : Nat) : KeyBindingGroup :=
  { name := name, label := label, keys := List.replicate count KeyBinding.zeroed }

/-- The macro `ADD_KB_GROUP`: every group gets the name `default_group_name`. -/
def ADD_KB_GROUP (label : String) (count : Nat) : KeyBindingGroup :=
  add_kb_group default_group_name label count

/-- Append a group to the pointer array `keybinding_groups`. -/
def g_ptr_array_add (groups : Registry) (group : KeyBindingGroup) : Registry :=
  groups ++ [group]

/-- The function `init_default_kb`.  A group is appended to `keybinding_groups`
once its slots are filled (the C code appends the pointer first and fills the
slots through it); `_("...")` is taken as the untranslated label. -/
def init_default_kb : Except Fault Registry := do
  let keybinding_groups : Registry := []

  let group := ADD_KB_GROUP "File menu" GEANY_KEYS_FILE_COUNT
  let group ← add_kb group GEANY_KEYS_MENU_NEW (some .cb_func_file_action)
    GDK_n GDK_CONTROL_MASK "menu_new" "New"
  let group ← add_kb group GEANY_KEYS_MENU_OPEN (some .cb_func_file_action)
    GDK_o GDK_CONTROL_MASK "menu_open" "Open"
  let group ← add_kb group GEANY_KEYS_MENU_OPENSELECTED (some .cb_func_file_action)
    GDK_o (GDK_SHIFT_MASK ||| GDK_CONTROL_MASK) "menu_open_selected" "Open selected file"
  let group ← add_kb group GEANY_KEYS_MENU_SAVE (some .cb_func_file_action)
    GDK_s GDK_CONTROL_MASK "menu_save" "Save"
  let group ← add_kb group GEANY_KEYS_MENU_SAVEAS (some .cb_func_file_action)
    0 0 "menu_saveas" "Save as"
  let group ← add_kb group GEANY_KEYS_MENU_SAVEALL (some .cb_func_file_action)
    GDK_S (GDK_SHIFT_MASK ||| GDK_CONTROL_MASK) "menu_saveall" "Save all"
  let group ← add_kb group GEANY_KEYS_MENU_PRINT (some .cb_func_menu_print)
    GDK_p GDK_CONTROL_MASK "menu_print" "Print"
  let group ← add_kb group GEANY_KEYS_MENU_CLOSE (some .cb_func_file_action)
    GDK_w GDK_CONTROL_MASK "menu_close" "Close"
  let group ← add_kb group GEANY_KEYS_MENU_CLOSEALL (some .cb_func_file_action)
    GDK_w (GDK_CONTROL_MASK ||| GDK_SHIFT_MASK) "menu_closeall" "Close all"
  let group ← add_kb group GEANY_KEYS_MENU_RELOADFILE (some .cb_func_file_action)
    GDK_r GDK_CONTROL_MASK "menu_reloadfile" "Reload file"
  let group ← add_kb group GEANY_KEYS_MENU_PROJECTPROPERTIES (some .cb_func_file_action)
    0 0 "project_properties" "Project properties"
  let keybinding_groups := g_ptr_array_add keybinding_groups group

  let group := ADD_KB_GROUP "Edit menu" GEANY_KEYS_EDIT_COUNT
  let group ← add_kb group GEANY_KEYS_MENU_UNDO (some .cb_func_menu_undo)
    GDK_z GDK_CONTROL_MASK "menu_undo" "Undo"
  let group ← add_kb group GEANY_KEYS_MENU_REDO (some .cb_func_menu_redo)
    GDK_y GDK_CONTROL_MASK "menu_redo" "Redo"
  let group ← add_kb group GEANY_KEYS_MENU_CUT (some .cb_func_clipboard)
    GDK_x GDK_CONTROL_MASK "menu_cut" "Cut"
  let group ← add_kb group GEANY_KEYS_MENU_COPY (some .cb_func_clipboard)
    GDK_c GDK_CONTROL_MASK "menu_copy" "Copy"
  let group ← add_kb group GEANY_KEYS_MENU_PASTE (some .cb_func_clipboard)
    GDK_v GDK_CONTROL_MASK "menu_paste" "Paste"
  let group ← add_kb group GEANY_KEYS_MENU_SELECTALL (some .cb_func_menu_selectall)
    GDK_a GDK_CONTROL_MASK "menu_selectall" "Select All"
  let group ← add_kb group GEANY_KEYS_MENU_INSERTDATE (some .cb_func_menu_insert_date)
    GDK_d (GDK_SHIFT_MASK ||| GDK_MOD1_MASK) "menu_insert_date" "Insert date"
  let group ← add_kb group GEANY_KEYS_MENU_PREFERENCES (some .cb_func_menu_preferences)
    GDK_p (GDK_CONTROL_MASK ||| GDK_MOD1_MASK) "menu_preferences" "Preferences"
  let keybinding_groups := g_ptr_array_add keybinding_groups group

  let group := ADD_KB_GROUP "Search menu" GEANY_KEYS_SEARCH_COUNT
  let group ← add_kb group GEANY_KEYS_MENU_FIND (some .cb_func_menu_search)
    GDK_f GDK_CONTROL_MASK "menu_find" "Find"
  let group ← add_kb group GEANY_KEYS_MENU_FINDNEXT (some .cb_func_menu_search)
    GDK_g GDK_CONTROL_MASK "menu_findnext" "Find Next"
  let group ← add_kb group GEANY_KEYS_MENU_FINDPREVIOUS (some .cb_func_menu_search)
    GDK_g (GDK_CONTROL_MASK ||| GDK_SHIFT_MASK) "menu_findprevious" "Find Previous"
  let group ← add_kb group GEANY_KEYS_MENU_FINDNEXTSEL (some .cb_func_menu_search)
    0 0 "menu_findnextsel" "Find Next Selection"
  let group ← add_kb group GEANY_KEYS_MENU_FINDPREVSEL (some .cb_func_menu_search)
    0 0 "menu_findprevsel" "Find Previous Selection"
  let group ← add_kb group GEANY_KEYS_MENU_REPLACE (some .cb_func_menu_search)
    GDK_h GDK_CONTROL_MASK "menu_replace" "Replace"
  let group ← add_kb group GEANY_KEYS_MENU_FINDINFILES (some .cb_func_menu_search)
    GDK_f (GDK_CONTROL_MASK ||| GDK_SHIFT_MASK) "menu_findinfiles" "Find in Files"
  let group ← add_kb group GEANY_KEYS_MENU_NEXTMESSAGE (some .cb_func_menu_search)
    0 0 "menu_nextmessage" "Next Message"
  let group ← add_kb group GEANY_KEYS_MENU_GOTOLINE (some .cb_func_menu_search)
    GDK_l GDK_CONTROL_MASK "menu_gotoline" "Go to Line"
  let keybinding_groups := g_ptr_array_add keybinding_groups group

  let group := ADD_KB_GROUP "View menu" GEANY_KEYS_VIEW_COUNT
  let group ← add_kb group GEANY_KEYS_MENU_TOGGLEALL (some .cb_func_menu_toggle_all)
    0 0 "menu_toggleall" "Toggle All Additional Widgets"
  let group ← add_kb group GEANY_KEYS_MENU_FULLSCREEN (some .cb_func_menu_fullscreen)
    GDK_F11 0 "menu_fullscreen" "Fullscreen"
  let group ← add_kb group GEANY_KEYS_MENU_MESSAGEWINDOW (some .cb_func_menu_messagewindow)
    0 0 "menu_messagewindow" "Toggle Messages Window"
  let group ← add_kb group GEANY_KEYS_MENU_SIDEBAR (some .cb_func_toggle_sidebar)
    0 0 "toggle_sidebar" "Toggle Sidebar"
  let group ← add_kb group GEANY_KEYS_MENU_ZOOMIN (some .cb_func_menu_zoomin)
    GDK_plus GDK_CONTROL_MASK "menu_zoomin" "Zoom In"
  let group ← add_kb group GEANY_KEYS_MENU_ZOOMOUT (some .cb_func_menu_zoomout)
    GDK_minus GDK_CONTROL_MASK "menu_zoomout" "Zoom Out"
  let keybinding_groups := g_ptr_array_add keybinding_groups group

  let group := ADD_KB_GROUP "Document menu" GEANY_KEYS_DOCUMENT_COUNT
  let group ← add_kb group GEANY_KEYS_MENU_REPLACETABS (some .cb_func_menu_replacetabs)
    0 0 "menu_replacetabs" "Replace tabs by space"
  let group ← add_kb group GEANY_KEYS_MENU_FOLDALL (some .cb_func_menu_foldall)
    0 0 "menu_foldall" "Fold all"
  let group ← add_kb group GEANY_KEYS_MENU_UNFOLDALL (some .cb_func_menu_unfoldall)
    0 0 "menu_unfoldall" "Unfold all"
  let group ← add_kb group GEANY_KEYS_RELOADTAGLIST (some .cb_func_reloadtaglist)
    GDK_r (GDK_SHIFT_MASK ||| GDK_CONTROL_MASK) "reloadtaglist" "Reload symbol list"
  let keybinding_groups := g_ptr_array_add keybinding_groups group

  let group := ADD_KB_GROUP "Build menu" GEANY_KEYS_BUILD_COUNT
  let group ← add_kb group GEANY_KEYS_BUILD_COMPILE (some .cb_func_build_action)
    GDK_F8 0 "build_compile" "Compile"
  let group ← add_kb group GEANY_KEYS_BUILD_LINK (some .cb_func_build_action)
    GDK_F9 0 "build_link" "Build"
  let group ← add_kb group GEANY_KEYS_BUILD_MAKE (some .cb_func_build_action)
    GDK_F9 GDK_SHIFT_MASK "build_make" "Make all"
  let group ← add_kb group GEANY_KEYS_BUILD_MAKEOWNTARGET (some .cb_func_build_action)
    GDK_F9 (GDK_SHIFT_MASK ||| GDK_CONTROL_MASK) "build_makeowntarget" "Make custom target"
  let group ← add_kb group GEANY_KEYS_BUILD_MAKEOBJECT (some .cb_func_build_action)
    0 0 "build_makeobject" "Make object"
  let group ← add_kb group GEANY_KEYS_BUILD_NEXTERROR (some .cb_func_build_action)
    0 0 "build_nexterror" "Next error"
  let group ← add_kb group GEANY_KEYS_BUILD_RUN (some .cb_func_build_action)
    GDK_F5 0 "build_run" "Run"
  let group ← add_kb group GEANY_KEYS_BUILD_RUN2 (some .cb_func_build_action)
    0 0 "build_run2" "Run (alternative command)"
  let group ← add_kb group GEANY_KEYS_BUILD_OPTIONS (some .cb_func_build_action)
    0 0 "build_options" "Build options"
  let keybinding_groups := g_ptr_array_add keybinding_groups group

  let group := ADD_KB_GROUP "Tools menu" GEANY_KEYS_TOOLS_COUNT
  let group ← add_kb group GEANY_KEYS_MENU_OPENCOLORCHOOSER (some .cb_func_menu_opencolorchooser)
    0 0 "menu_opencolorchooser" "Show Color Chooser"
  let group ← add_kb group GEANY_KEYS_MENU_INSERTSPECIALCHARS (some .cb_func_menu_insert_specialchars)
    0 0 "menu_insert_specialchars" "Insert Special HTML Characters"
  let keybinding_groups := g_ptr_array_add keybinding_groups group

  let group := ADD_KB_GROUP "Help menu" GEANY_KEYS_HELP_COUNT
  let group ← add_kb group GEANY_KEYS_MENU_HELP (some .cb_func_menu_help)
    GDK_F1 0 "menu_help" "Help"
  let keybinding_groups := g_ptr_array_add keybinding_groups group

  let group := ADD_KB_GROUP "Focus commands" GEANY_KEYS_FOCUS_COUNT
  let group ← add_kb group GEANY_KEYS_SWITCH_EDITOR (some .cb_func_switch_editor)
    GDK_F2 0 "switch_editor" "Switch to Editor"
  let group ← add_kb group GEANY_KEYS_SWITCH_SCRIBBLE (some .cb_func_switch_scribble)
    GDK_F6 0 "switch_scribble" "Switch to Scribble"
  let group ← add_kb group GEANY_KEYS_SWITCH_VTE (some .cb_func_switch_vte)
    GDK_F4 0 "switch_vte" "Switch to VTE"
  let group ← add_kb group GEANY_KEYS_SWITCH_SEARCH_BAR (some .cb_func_switch_search_bar)
    GDK_F7 0 "switch_search_bar" "Switch to Search Bar"
  let keybinding_groups := g_ptr_array_add keybinding_groups group

  let group := ADD_KB_GROUP "Notebook tab commands" GEANY_KEYS_NOTEBOOK_COUNT
  let group ← add_kb group GEANY_KEYS_SWITCH_TABLEFT (some .cb_func_switch_tableft)
    GDK_Page_Up GDK_CONTROL_MASK "switch_tableft" "Switch to left document"
  let group ← add_kb group GEANY_KEYS_SWITCH_TABRIGHT (some .cb_func_switch_tabright)
    GDK_Page_Down GDK_CONTROL_MASK "switch_tabright" "Switch to right document"
  let group ← add_kb group GEANY_KEYS_SWITCH_TABLASTUSED (some .cb_func_switch_tablastused)
    GDK_Tab GDK_CONTROL_MASK "switch_tablastused" "Switch to last used document"
  let group ← add_kb group GEANY_KEYS_MOVE_TABLEFT (some .cb_func_move_tab)
    GDK_Page_Up GDK_MOD1_MASK "move_tableft" "Move document left"
  let group ← add_kb group GEANY_KEYS_MOVE_TABRIGHT (some .cb_func_move_tab)
    GDK_Page_Down GDK_MOD1_MASK "move_tabright" "Move document right"
  let group ← add_kb group GEANY_KEYS_MOVE_TABFIRST (some .cb_func_move_tab)
    0 0 "move_tabfirst" "Move document first"
  let group ← add_kb group GEANY_KEYS_MOVE_TABLAST (some .cb_func_move_tab)
    0 0 "move_tablast" "Move document last"
  let keybinding_groups := g_ptr_array_add keybinding_groups group

  let group := ADD_KB_GROUP "Editing commands" GEANY_KEYS_EDITING_COUNT
  let group ← add_kb group GEANY_KEYS_EDIT_DUPLICATELINE (some .cb_func_editing)
    GDK_d GDK_CONTROL_MASK "edit_duplicateline" "Duplicate line or selection"
  let group ← add_kb group GEANY_KEYS_EDIT_DELETELINE (some .cb_func_editing)
    GDK_k GDK_CONTROL_MASK "edit_deleteline" "Delete current line(s)"
  let group ← add_kb group GEANY_KEYS_EDIT_COPYLINE (some .cb_func_editing)
    GDK_c (GDK_CONTROL_MASK ||| GDK_SHIFT_MASK) "edit_copyline" "Copy current line(s)"
  let group ← add_kb group GEANY_KEYS_EDIT_CUTLINE (some .cb_func_editing)
    GDK_x (GDK_CONTROL_MASK ||| GDK_SHIFT_MASK) "edit_cutline" "Cut current line(s)"
  let group ← add_kb group GEANY_KEYS_EDIT_TRANSPOSELINE (some .cb_func_editing)
    GDK_t GDK_CONTROL_MASK "edit_transposeline" "Transpose current line"
  let group ← add_kb group GEANY_KEYS_EDIT_TOGGLECASE (some .cb_func_editing)
    GDK_u (GDK_CONTROL_MASK ||| GDK_MOD1_MASK) "edit_togglecase" "Toggle Case of Selection"
  let group ← add_kb group GEANY_KEYS_EDIT_COMMENTLINETOGGLE (some .cb_func_editing)
    GDK_e GDK_CONTROL_MASK "edit_commentlinetoggle" "Toggle line commentation"
  let group ← add_kb group GEANY_KEYS_EDIT_COMMENTLINE (some .cb_func_editing)
    0 0 "edit_commentline" "Comment line(s)"
  let group ← add_kb group GEANY_KEYS_EDIT_UNCOMMENTLINE (some .cb_func_editing)
    0 0 "edit_uncommentline" "Uncomment line(s)"
  let group ← add_kb group GEANY_KEYS_EDIT_INCREASEINDENT (some .cb_func_editing)
    GDK_i GDK_CONTROL_MASK "edit_increaseindent" "Increase indent"
  let group ← add_kb group GEANY_KEYS_EDIT_DECREASEINDENT (some .cb_func_editing)
    GDK_u GDK_CONTROL_MASK "edit_decreaseindent" "Decrease indent"
  let group ← add_kb group GEANY_KEYS_EDIT_INCREASEINDENTBYSPACE (some .cb_func_editing)
    0 0 "edit_increaseindentbyspace" "Increase indent by one space"
  let group ← add_kb group GEANY_KEYS_EDIT_DECREASEINDENTBYSPACE (some .cb_func_editing)
    0 0 "edit_decreaseindentbyspace" "Decrease indent by one space"
  let group ← add_kb group GEANY_KEYS_EDIT_AUTOINDENT (some .cb_func_editing)
    0 0 "edit_autoindent" "Smart line indent"
  let group ← add_kb group GEANY_KEYS_EDIT_SENDTOCMD1 (some .cb_func_editing)
    GDK_1 GDK_CONTROL_MASK "edit_sendtocmd1" "Send to Custom Command 1"
  let group ← add_kb group GEANY_KEYS_EDIT_SENDTOCMD2 (some .cb_func_editing)
    GDK_2 GDK_CONTROL_MASK "edit_sendtocmd2" "Send to Custom Command 2"
  let group ← add_kb group GEANY_KEYS_EDIT_SENDTOCMD3 (some .cb_func_editing)
    GDK_3 GDK_CONTROL_MASK "edit_sendtocmd3" "Send to Custom Command 3"
  let group ← add_kb group GEANY_KEYS_EDIT_GOTOMATCHINGBRACE (some .cb_func_editing_global)
    GDK_b GDK_CONTROL_MASK "edit_gotomatchingbrace" "Go to matching brace"
  let group ← add_kb group GEANY_KEYS_EDIT_TOGGLEMARKER (some .cb_func_editing_global)
    GDK_m GDK_CONTROL_MASK "edit_togglemarker" "Toggle marker"
  let group ← add_kb group GEANY_KEYS_EDIT_GOTONEXTMARKER (some .cb_func_editing_global)
    GDK_period GDK_CONTROL_MASK "edit_gotonextmarker" "Go to next marker"
  let group ← add_kb group GEANY_KEYS_EDIT_GOTOPREVIOUSMARKER (some .cb_func_editing_global)
    GDK_comma GDK_CONTROL_MASK "edit_gotopreviousmarker" "Go to previous marker"
  let group ← add_kb group GEANY_KEYS_EDIT_SELECTWORD (some .cb_func_editing)
    GDK_w (GDK_SHIFT_MASK ||| GDK_MOD1_MASK) "edit_selectword" "Select current word"
  let group ← add_kb group GEANY_KEYS_EDIT_SELECTLINE (some .cb_func_editing)
    GDK_l (GDK_SHIFT_MASK ||| GDK_MOD1_MASK) "edit_selectline" "Select current line(s)"
  let group ← add_kb group GEANY_KEYS_EDIT_SELECTPARAGRAPH (some .cb_func_editing)
    GDK_p (GDK_SHIFT_MASK ||| GDK_MOD1_MASK) "edit_selectparagraph" "Select current paragraph"
  let group ← add_kb group GEANY_KEYS_EDIT_SCROLLTOLINE (some .cb_func_editing)
    GDK_l (GDK_SHIFT_MASK ||| GDK_CONTROL_MASK) "edit_scrolltoline" "Scroll to current line"
  let group ← add_kb group GEANY_KEYS_EDIT_SCROLLLINEUP (some .cb_func_editing)
    GDK_Up GDK_MOD1_MASK "edit_scrolllineup" "Scroll up the view by one line"
  let group ← add_kb group GEANY_KEYS_EDIT_SCROLLLINEDOWN (some .cb_func_editing)
    GDK_Down GDK_MOD1_MASK "edit_scrolllinedown" "Scroll down the view by one line"
  let group ← add_kb group GEANY_KEYS_EDIT_INSERTALTWHITESPACE (some .cb_func_editing)
    0 0 "edit_insertwhitespace" "Insert alternative whitespace"
  let group ← add_kb group GEANY_KEYS_POPUP_FINDUSAGE (some .cb_func_current_word)
    0 0 "popup_findusage" "Find Usage"
  let group ← add_kb group GEANY_KEYS_POPUP_CONTEXTACTION (some .cb_func_current_word)
    0 0 "popup_contextaction" "Context Action"
  let keybinding_groups := g_ptr_array_add keybinding_groups group

  let group := ADD_KB_GROUP "Tag commands" GEANY_KEYS_TAGS_COUNT
  let group ← add_kb group GEANY_KEYS_EDIT_AUTOCOMPLETE (some .cb_func_tags)
    GDK_space GDK_CONTROL_MASK "edit_autocomplete" "Complete word"
  let group ← add_kb group GEANY_KEYS_EDIT_CALLTIP (some .cb_func_tags)
    GDK_space (GDK_CONTROL_MASK ||| GDK_SHIFT_MASK) "edit_calltip" "Show calltip"
  let group ← add_kb group GEANY_KEYS_EDIT_MACROLIST (some .cb_func_tags)
    GDK_Return GDK_CONTROL_MASK "edit_macrolist" "Show macro list"
  let group ← add_kb group GEANY_KEYS_EDIT_COMPLETESNIPPET none
    GDK_Tab 0 "edit_completesnippet" "Complete snippet"
  let group ← add_kb group GEANY_KEYS_EDIT_SUPPRESSSNIPPETCOMPLETION (some .cb_func_tags)
    0 0 "edit_suppresssnippetcompletion" "Suppress snippet completion"
  let group ← add_kb group GEANY_KEYS_POPUP_GOTOTAGDEFINITION (some .cb_func_current_word)
    0 0 "popup_gototagdefinition" "Go to Tag Definition"
  let group ← add_kb group GEANY_KEYS_POPUP_GOTOTAGDECLARATION (some .cb_func_current_word)
    0 0 "popup_gototagdeclaration" "Go to Tag Declaration"
  let keybinding_groups := g_ptr_array_add keybinding_groups group

  let group := ADD_KB_GROUP "Other commands" GEANY_KEYS_OTHER_COUNT
  let group ← add_kb group GEANY_KEYS_NAV_BACK (some .cb_func_nav_back)
    0 0 "nav_back" "Navigate back a location"
  let group ← add_kb group GEANY_KEYS_NAV_FORWARD (some .cb_func_nav_forward)
    0 0 "nav_forward" "Navigate forward a location"
  let keybinding_groups := g_ptr_array_add keybinding_groups group

  pure keybinding_groups

/-- The registry after `init_default_kb` (empty if it had faulted; it does not,
see `init_default_kb_ok`). -/
def default_registry : Registry :=
  match init_default_kb with
  | .ok groups => groups
  | .error _ => []

/-! ## Traversal, loader and writer (lines 423-473, 579-612) -/

/-- The inner loop of `keybindings_foreach`: the bindings of one group, in index
order.  The callback may change the binding it is given and the user data. -/
def keybindings_foreach_keys {σ : Type} (cb : KeyBindingGroup → KeyBinding → σ → KeyBinding × σ)
    (group : KeyBindingGroup) : List KeyBinding → σ → List KeyBinding × σ
  | [], user_data => ([], user_data)
  | kb :: rest, user_data =>
    let (kb1, user_data1) := cb group kb user_data
    let (rest1, user_data2) := keybindings_foreach_keys cb group rest user_data1
    (kb1 :: rest1, user_data2)

/-- The function `keybindings_foreach`: every group in array order, every
binding of the group in index order. -/
def keybindings_foreach {σ : Type} (cb : KeyBindingGroup → KeyBinding → σ → KeyBinding × σ) :
    Registry → σ → Registry × σ
  | [], user_data => ([], user_data)
  | group :: rest, user_data =>
    let (keys1, user_data1) := keybindings_foreach_keys cb group group.keys user_data
    let (rest1, user_data2) := keybindings_foreach cb rest user_data1
    ({ group with keys := keys1 } :: rest1, user_data2)

/-- A `GKeyFile` as the loader and the writer see it: values by group name and
key, looked up front to back. -/
abbrev GKeyFile := List ((String × String) × String)

/-- The GLib function `g_key_file_get_string`; a `NULL` key yields `NULL`. -/
def g_key_file_get_string (config : GKeyFile) (group_name : String) (key : Option String) :
    Option String :=
  match key with
  | none => none
  | some k => (config.find? (fun e => e.1 = (group_name, k))).map Prod.snd

/-- The GLib function `g_key_file_set_string` on a non-null key: replace the
value in place, or append a new entry. -/
def g_key_file_set_string_key (group_name key value : String) : GKeyFile → GKeyFile
  | [] => [((group_name, key), value)]
  | e :: rest =>
    if e.1 = (group_name, key) then ((group_name, key), value) :: rest
    else e :: g_key_file_set_string_key group_name key value rest

/-- The GLib function `g_key_file_set_string`; a `NULL` key changes nothing. -/
def g_key_file_set_string (config : GKeyFile) (group_name : String) (key : Option String)
    (value : String) : GKeyFile :=
  match key with
  | none => config
  | some k => g_key_file_set_string_key group_name k value config

/-- The function `get_keyfile_kb`; `parse` is `gtk_accelerator_parse`, giving
the pair `(key, mods)` it stores through its out-parameters. -/
def get_keyfile_kb (parse : String → Nat × Nat) (group : KeyBindingGroup) (kb : KeyBinding)
    (config : GKeyFile) : KeyBinding × GKeyFile :=
  match g_key_file_get_string config group.name kb.name with
  | some val => ({ kb with key := (parse val).1, mods := (parse val).2 }, config)
  | none => (kb, config)

/-- The function `load_user_kb`; `file` is what `g_key_file_load_from_file`
reads from `keybindings.conf`, `none` when it returns `FALSE` (the file is
missing or malformed). -/
def load_user_kb (parse : String → Nat × Nat) (file : Option GKeyFile) (groups : Registry) :
    Registry :=
  match file with
  | some config => (keybindings_foreach (get_keyfile_kb parse) groups config).1
  | none => groups

/-- The function `keybindings_init`: `init_default_kb`, then `load_user_kb`;
the body of `add_menu_accels` is under `#if 0`. -/
def keybindings_init (parse : String → Nat × Nat) (file : Option GKeyFile) :
    Except Fault Registry := do
  let keybinding_groups ← init_default_kb
  pure (load_user_kb parse file keybinding_groups)

/-- The function `set_keyfile_kb`; `accel_name` is `gtk_accelerator_name`. -/
def set_keyfile_kb (accel_name : Nat → Nat → String) (group : KeyBindingGroup)
    (kb : KeyBinding) (config : GKeyFile) : KeyBinding × GKeyFile :=
  (kb, g_key_file_set_string config group.name kb.name (accel_name kb.key kb.mods))

/-- The comment that `keybindings_write_to_file` puts on top of a new file. -/
def keyfile_comment : String :=
  "Keybindings for Geany\nThe format looks like \"<Control>a\" or \"<Shift><Alt>F1\".\nBut you can also change the keys in Geany's preferences dialog."

/-- The function `keybindings_write_to_file`; `file` is what
`g_key_file_load_from_file` reads from `keybindings.conf`, `none` when it returns
`FALSE`.  The result is the registry after the call, the top comment set by
`g_key_file_set_comment` if any, and the key file handed to `utils_write_file`. -/
def keybindings_write_to_file (accel_name : Nat → Nat → String) (file : Option GKeyFile)
    (groups : Registry) : Registry × Option String × GKeyFile :=
  let (config, comment) : GKeyFile × Option String :=
    match file with
    | some config => (config, none)
    | none => ([], some keyfile_comment)
  let (groups1, config1) := keybindings_foreach (set_keyfile_kb accel_name) groups config
  (groups1, comment, config1)

/-! ## Dispatch (lines 729-912) -/

/-- The function `check_fixed_kb`. -/
def check_fixed_kb (a : Ambient) (keyval state : Nat) : Bool × List Action :=
  if state &&& GDK_MOD1_MASK ≠ 0 ∧ keyval ≥ GDK_0 ∧ keyval ≤ GDK_9 then
    let page : Int := (keyval : Int) - (GDK_0 : Int) - 1
    let npages : Int := a.npages
    let page := if keyval = GDK_0 then npages - 1 else page
    let page := if swap_alt_tab_order = true ∧ a.tab_order_ltr = false then (npages - 1) - page
      else page
    (true, [.notebook_set_current_page page])
  else if keyval = GDK_Page_Up ∨ keyval = GDK_Page_Down then
    if state = (GDK_CONTROL_MASK ||| GDK_SHIFT_MASK) then
      (true,
        (if keyval = GDK_Page_Up then [.notebook_set_current_page 0] else []) ++
        (if keyval = GDK_Page_Down then [.notebook_set_current_page (a.npages - 1)] else []))
    else (false, [])
  else (false, [])

/-- The function `check_snippet_completion`: `return FALSE; /* tmp */`, the rest
of its body is under `#if 0`. -/
def check_snippet_completion (_keyval _state : Nat) : Bool × List Action :=
  (false, [])

/-- The function `keybindings_lookup_item`.  `g_return_val_if_fail` returns
`NULL` (`none`); `g_ptr_array_index` beyond the array is a fault. -/
def keybindings_lookup_item (groups : Registry) (group_id cmd_id : Nat) :
    Except Fault (Option KeyBinding) :=
  if ¬ (group_id < GEANY_KEYGROUP_COUNT) then .ok none
  else
    match groups[group_id]? with
    | none => .error .out_of_bounds
    | some group =>
      if ¬ (cmd_id < group.count) then .ok none
      else .ok group.keys[cmd_id]?

/-- The conversion of a `gint` argument to the `guint` parameter it is passed
for. -/
def guint_of_gint (x : Int) : Nat := (x % 4294967296).toNat

/-- The function `keybindings_send_command`: the calls made.  The call
`kb->cb_func(cmd_id)` through a `NULL` function pointer is a fault. -/
def keybindings_send_command (groups : Registry) (group_id cmd_id : Int) :
    Except Fault (List Action) :=
  match keybindings_lookup_item groups (guint_of_gint group_id) (guint_of_gint cmd_id) with
  | .error f => .error f
  | .ok none => .ok []
  | .ok (some kb) =>
    match kb.cb_func with
    | none => .error .null_dereference
    | some f => .ok [.cb_func f (guint_of_gint cmd_id)]

/-- The loop of `check_vte` over the Focus group, from index `i` on with `n`
iterations left: `true` when some binding has the chord (the C loop returns
`FALSE` from `check_vte` there).  `kb->mods` on a `NULL` binding is a fault. -/
def check_vte_focus_loop (groups : Registry) (state keyval : Nat) :
    Nat → Nat → Except Fault Bool
  | 0, _ => .ok false
  | n + 1, i =>
    match keybindings_lookup_item groups GEANY_KEYGROUP_FOCUS i with
    | .error f => .error f
    | .ok none => .error .null_dereference
    | .ok (some kb) =>
      if state = kb.mods ∧ keyval = kb.key then .ok true
      else check_vte_focus_loop groups state keyval n (i + 1)

/-- The function `check_vte`. -/
def check_vte (a : Ambient) (groups : Registry) (state keyval : Nat) :
    Except Fault (Bool × List Action) :=
  if a.enable_bash_keys = false then .ok (false, [])
  else if a.focus ≠ .vte then .ok (false, [])
  else if state = GDK_SHIFT_MASK ∧ (keyval ≥ GDK_a ∧ keyval ≤ GDK_z) then .ok (false, [])
  else if state = 0 ∧ (keyval < GDK_F1 ∨ keyval > GDK_F35) then .ok (false, [])
  else
    match check_vte_focus_loop groups state keyval GEANY_KEYS_FOCUS_COUNT 0 with
    | .error f => .error f
    | .ok true => .ok (false, [])
    | .ok false =>
      .ok (true, [.set_insensitive .menubar1, .idle_add_set_sensitive .menubar1,
                  .set_insensitive .popup_menu, .idle_add_set_sensitive .popup_menu])

/-- The inner loop of the registry scan of `keybindings_got_event` from index
`i` on: the first binding of the group whose chord is `(keyval, state)`, with its
index. -/
def scan_keys (keyval state : Nat) : List KeyBinding → Nat → Option (Nat × KeyBinding)
  | [], _ => none
  | kb :: rest, i =>
    if keyval = kb.key ∧ state = kb.mods then some (i, kb)
    else scan_keys keyval state rest (i + 1)

/-- The outer loop of the registry scan of `keybindings_got_event` from group
index `g` on: the first binding in declaration order whose chord is
`(keyval, state)`, with the loop variables `g` and `i` at that point. -/
def scan_groups (keyval state : Nat) : Registry → Nat → Option (Nat × Nat × KeyBinding)
  | [], _ => none
  | group :: rest, g =>
    match scan_keys keyval state group.keys 0 with
    | some (i, kb) => some (g, i, kb)
    | none => scan_groups keyval state rest (g + 1)

/-- The value of `state` in `keybindings_got_event` (line 848). -/
def normalised_state (ev : GdkEventKey) : Nat :=
  ev.state &&& GEANY_KEYS_MODIFIER_MASK

/-- The value of `keyval` in `keybindings_got_event` after lines 847-853. -/
def normalised_keyval (ev : GdkEventKey) : Nat :=
  if (ev.state &&& GDK_SHIFT_MASK ≠ 0 ∨ ev.state &&& GDK_LOCK_MASK ≠ 0) ∧
      (ev.keyval ≥ GDK_A ∧ ev.keyval ≤ GDK_Z) then
    ev.keyval + (GDK_a - GDK_A)
  else ev.keyval

/-- The function `keybindings_got_event`: the returned `gboolean` and the calls
made. -/
def keybindings_got_event (a : Ambient) (groups : Registry) (ev : GdkEventKey) :
    Except Fault (Bool × List Action) :=
  if ev.keyval = 0 then .ok (false, [])
  else
    let keyval := normalised_keyval ev
    let state := normalised_state ev
    match (if a.have_vte = true then check_vte a groups state keyval else .ok (false, [])) with
    | .error f => .error f
    | .ok (true, acts) => .ok (false, acts)
    | .ok (false, acts) =>
      match check_snippet_completion keyval state with
      | (true, acts1) => .ok (true, acts ++ acts1)
      | (false, acts1) =>
        match scan_groups keyval state groups 0 with
        | some (_, i, kb) =>
          match kb.cb_func with
          | none => .ok (false, acts ++ acts1)
          | some f => .ok (true, acts ++ acts1 ++ [.cb_func f i])
        | none =>
          match check_fixed_kb a keyval state with
          | (r, acts2) => .ok (r, acts ++ acts1 ++ acts2)

/-! ## Vocabulary of the statements -/

/-- The binding stored at index `i` of the group at index `g`. -/
def binding_at (groups : Registry) (g i : Nat) : Option KeyBinding :=
  match groups[g]? with
  | some group => group.keys[i]?
  | none => none

/-- The binding `kb` has the chord `(keyval, state)`. -/
def has_chord (kb : KeyBinding) (keyval state : Nat) : Prop :=
  kb.key = keyval ∧ kb.mods = state

instance (kb : KeyBinding) (keyval state : Nat) : Decidable (has_chord kb keyval state) := by
  unfold has_chord; infer_instance

/-- The binding `kb` is stored at position `(g, i)`, has the chord
`(keyval, state)`, and no binding before it in declaration order (groups in
registry order, then bindings by index) has that chord. -/
def FirstMatch (groups : Registry) (keyval state g i : Nat) (kb : KeyBinding) : Prop :=
  binding_at groups g i = some kb ∧ has_chord kb keyval state ∧
  ∀ g1 i1 kb1, binding_at groups g1 i1 = some kb1 → (g1 < g ∨ (g1 = g ∧ i1 < i)) →
    ¬ has_chord kb1 keyval state

/-- The terminal-passthrough stage of `keybindings_got_event` does not claim
the event: it is skipped, or `check_vte` returns `FALSE`. -/
def vte_declines (a : Ambient) (groups : Registry) (ev : GdkEventKey) : Prop :=
  a.have_vte = false ∨
    check_vte a groups (normalised_state ev) (normalised_keyval ev) = .ok (false, [])

/-- The chord is on the denylist of `check_vte` (lines 809-812): modifiers
exactly Shift with a key in `a..z`, or no modifiers with a key outside
`F1..F35`. -/
def on_vte_denylist (keyval state : Nat) : Prop :=
  (state = GDK_SHIFT_MASK ∧ (GDK_a ≤ keyval ∧ keyval ≤ GDK_z)) ∨
  (state = 0 ∧ (keyval < GDK_F1 ∨ GDK_F35 < keyval))

instance (keyval state : Nat) : Decidable (on_vte_denylist keyval state) := by
  unfold on_vte_denylist; infer_instance

/-- An ambient state used in the examples: the terminal has the focus and its
bash keys are enabled, four tabs are open. -/
def terminal_focused : Ambient :=
  { have_vte := true, enable_bash_keys := true, focus := .vte, npages := 4,
    tab_order_ltr := true, complete_snippets := true, editor_complete_snippet := true }

/-- An ambient state used in the examples: the editor widget of a valid document
has the focus, a terminal exists with bash keys enabled, four tabs are open. -/
def editor_focused : Ambient :=
  { have_vte := true, enable_bash_keys := true, focus := .sci, npages := 4,
    tab_order_ltr := true, complete_snippets := true, editor_complete_snippet := true }

/-- The pairs of section and key under which the writer stores, and the loader
looks up, the bindings of a registry, in traversal order. -/
def store_keys (groups : Registry) : List (String × Option String) :=
  groups.flatMap (fun group => group.keys.map (fun kb => (group.name, kb.name)))

/-- A stand-in for `gtk_accelerator_parse` in the examples: it knows the one
text `<Control><Shift>n` and reports failure, with key 0 and mods 0, on every
other text. -/
def example_parse (val : String) : Nat × Nat :=
  if val = "<Control><Shift>n" then (GDK_n, GDK_CONTROL_MASK ||| GDK_SHIFT_MASK) else (0, 0)

/-- The calls of `g_key_file_set_string` that `keybindings_foreach` makes with
`set_keyfile_kb`: section, key and value, in traversal order. -/
def keyfile_writes (accel_name : Nat → Nat → String) (groups : Registry) :
    List (String × Option String × String) :=
  groups.flatMap (fun group =>
    group.keys.map (fun kb => (group.name, kb.name, accel_name kb.key kb.mods)))

/-- A stand-in for `gtk_accelerator_name` in the examples: a text of two
characters, the code points `key` and `mods`. -/
def example_accel_name (key mods : Nat) : String :=
  String.mk [Char.ofNat key, Char.ofNat mods]

/-- Every binding of a registry, in declaration order. -/
def all_bindings (groups : Registry) : List KeyBinding :=
  groups.flatMap (fun group => group.keys)

/-- The position `(g, i)` holds no binding, or an unbound one (key 0), or a
binding that the registry scan selects for its own chord. -/
def bound_is_first_match (groups : Registry) (g i : Nat) : Bool :=
  match binding_at groups g i with
  | some kb => decide (kb.key = 0 ∨ scan_groups kb.key kb.mods groups 0 = some (g, i, kb))
  | none => true

/-! ## The default table -/

/-- No `g_assert` of `add_kb` fails in `init_default_kb`. -/
theorem init_default_kb_ok : init_default_kb = .ok default_registry := by
  decide

/-! ## The registry scan finds the first match -/

theorem scan_keys_none_iff (keyval state : Nat) (keys : List KeyBinding) (i0 : Nat) :
    scan_keys keyval state keys i0 = none ↔
      ∀ (i : Nat) (kb : KeyBinding), keys[i]? = some kb → ¬ has_chord kb keyval state := by
  induction keys generalizing i0 with
  | nil => simp [scan_keys]
  | cons k rest ih =>
    unfold scan_keys
    by_cases hk : keyval = k.key ∧ state = k.mods
    · rw [if_pos hk]
      constructor
      · intro h; cases h
      · intro h
        exact absurd ⟨hk.1.symm, hk.2.symm⟩ (h 0 k (by simp))
    · rw [if_neg hk, ih]
      constructor
      · intro h i kb hi
        cases i with
        | zero =>
          simp at hi
          subst hi
          intro hc
          exact hk ⟨hc.1.symm, hc.2.symm⟩
        | succ j =>
          simp at hi
          exact h j kb hi
      · intro h i kb hi
        exact h (i + 1) kb (by simpa using hi)

theorem scan_keys_some_iff (keyval state : Nat) (keys : List KeyBinding) (i0 j : Nat)
    (kb : KeyBinding) :
    scan_keys keyval state keys i0 = some (j, kb) ↔
      ∃ i, j = i0 + i ∧ keys[i]? = some kb ∧ has_chord kb keyval state ∧
        ∀ (i1 : Nat) (kb1 : KeyBinding), keys[i1]? = some kb1 → i1 < i → ¬ has_chord kb1 keyval state := by
  induction keys generalizing i0 with
  | nil => simp [scan_keys]
  | cons k rest ih =>
    unfold scan_keys
    by_cases hk : keyval = k.key ∧ state = k.mods
    · rw [if_pos hk]
      constructor
      · intro h
        simp only [Option.some.injEq, Prod.mk.injEq] at h
        refine ⟨0, by omega, by simp [h.2], ?_, ?_⟩
        · rw [← h.2]; exact ⟨hk.1.symm, hk.2.symm⟩
        · intro i1 kb1 _ hlt; omega
      · rintro ⟨i, hj, hi, hc, hearlier⟩
        cases i with
        | zero =>
          simp at hi
          simp [hj, hi]
        | succ i2 =>
          exact absurd ⟨hk.1.symm, hk.2.symm⟩ (hearlier 0 k (by simp) (by omega))
    · rw [if_neg hk, ih]
      constructor
      · rintro ⟨i, hj, hi, hc, hearlier⟩
        refine ⟨i + 1, by omega, by simpa using hi, hc, ?_⟩
        intro i1 kb1 hi1 hlt
        cases i1 with
        | zero =>
          simp at hi1
          subst hi1
          intro hc1
          exact hk ⟨hc1.1.symm, hc1.2.symm⟩
        | succ i2 =>
          exact hearlier i2 kb1 (by simpa using hi1) (by omega)
      · rintro ⟨i, hj, hi, hc, hearlier⟩
        cases i with
        | zero =>
          simp at hi
          subst hi
          exact absurd ⟨hc.1.symm, hc.2.symm⟩ hk
        | succ i2 =>
          refine ⟨i2, by omega, by simpa using hi, hc, ?_⟩
          intro i1 kb1 hi1 hlt
          exact hearlier (i1 + 1) kb1 (by simpa using hi1) (by omega)

theorem binding_at_nil (g i : Nat) : binding_at [] g i = none := by
  simp [binding_at]

theorem binding_at_cons_zero (group : KeyBindingGroup) (rest : Registry) (i : Nat) :
    binding_at (group :: rest) 0 i = group.keys[i]? := by
  simp [binding_at]

theorem binding_at_cons_succ (group : KeyBindingGroup) (rest : Registry) (g i : Nat) :
    binding_at (group :: rest) (g + 1) i = binding_at rest g i := by
  simp [binding_at]

theorem scan_groups_none_iff (keyval state : Nat) (groups : Registry) (g0 : Nat) :
    scan_groups keyval state groups g0 = none ↔
      ∀ g i kb, binding_at groups g i = some kb → ¬ has_chord kb keyval state := by
  induction groups generalizing g0 with
  | nil => simp [scan_groups, binding_at_nil]
  | cons group rest ih =>
    unfold scan_groups
    cases hs : scan_keys keyval state group.keys 0 with
    | some hit =>
      obtain ⟨j, kb⟩ := hit
      simp only [false_iff, reduceCtorEq]
      intro h
      obtain ⟨i, _, hi, hc, _⟩ := (scan_keys_some_iff keyval state group.keys 0 j kb).mp hs
      exact h 0 i kb (by rw [binding_at_cons_zero]; exact hi) hc
    | none =>
      simp only
      rw [ih]
      have hnone := (scan_keys_none_iff keyval state group.keys 0).mp hs
      constructor
      · intro h g i kb hb
        cases g with
        | zero =>
          rw [binding_at_cons_zero] at hb
          exact hnone i kb hb
        | succ g1 =>
          rw [binding_at_cons_succ] at hb
          exact h g1 i kb hb
      · intro h g i kb hb
        exact h (g + 1) i kb (by rw [binding_at_cons_succ]; exact hb)

theorem scan_groups_some_iff (keyval state : Nat) (groups : Registry) (g0 G i : Nat)
    (kb : KeyBinding) :
    scan_groups keyval state groups g0 = some (G, i, kb) ↔
      ∃ g, G = g0 + g ∧ FirstMatch groups keyval state g i kb := by
  induction groups generalizing g0 with
  | nil => simp [scan_groups, FirstMatch, binding_at_nil]
  | cons group rest ih =>
    unfold scan_groups
    cases hs : scan_keys keyval state group.keys 0 with
    | some hit =>
      obtain ⟨j, kbj⟩ := hit
      obtain ⟨i0, hj, hi0, hc0, hearlier0⟩ :=
        (scan_keys_some_iff keyval state group.keys 0 j kbj).mp hs
      have hj0 : j = i0 := by omega
      subst hj0
      simp only [Option.some.injEq, Prod.mk.injEq]
      constructor
      · rintro ⟨hG, hi, hkb⟩
        subst hi hkb
        refine ⟨0, by omega, ?_, hc0, ?_⟩
        · rw [binding_at_cons_zero]; exact hi0
        · intro g1 i1 kb1 hb hlt
          rcases hlt with hlt | ⟨hg, hlt⟩
          · omega
          · subst hg
            rw [binding_at_cons_zero] at hb
            exact hearlier0 i1 kb1 hb hlt
      · rintro ⟨g, hG, hb, hc, hearlier⟩
        cases g with
        | zero =>
          rw [binding_at_cons_zero] at hb
          rcases Nat.lt_trichotomy i j with hlt | heq | hgt
          · exact absurd hc (hearlier0 i kb hb hlt)
          · subst heq
            rw [hi0] at hb
            exact ⟨by omega, rfl, Option.some.inj hb⟩
          · exact absurd hc0
              (hearlier 0 j kbj (by rw [binding_at_cons_zero]; exact hi0) (Or.inr ⟨rfl, hgt⟩))
        | succ g1 =>
          exact absurd hc0
            (hearlier 0 j kbj (by rw [binding_at_cons_zero]; exact hi0) (Or.inl (by omega)))
    | none =>
      simp only
      rw [ih]
      have hnone := (scan_keys_none_iff keyval state group.keys 0).mp hs
      constructor
      · rintro ⟨g, hG, hb, hc, hearlier⟩
        refine ⟨g + 1, by omega, by rw [binding_at_cons_succ]; exact hb, hc, ?_⟩
        intro g1 i1 kb1 hb1 hlt
        cases g1 with
        | zero =>
          rw [binding_at_cons_zero] at hb1
          exact hnone i1 kb1 hb1
        | succ g2 =>
          rw [binding_at_cons_succ] at hb1
          exact hearlier g2 i1 kb1 hb1 (by omega)
      · rintro ⟨g, hG, hb, hc, hearlier⟩
        cases g with
        | zero =>
          rw [binding_at_cons_zero] at hb
          exact absurd hc (hnone i kb hb)
        | succ g1 =>
          rw [binding_at_cons_succ] at hb
          refine ⟨g1, by omega, hb, hc, ?_⟩
          intro g2 i2 kb2 hb2 hlt
          exact hearlier (g2 + 1) i2 kb2 (by rw [binding_at_cons_succ]; exact hb2) (by omega)

theorem scan_groups_eq_of_first_match (keyval state : Nat) (groups : Registry) (g i : Nat)
    (kb : KeyBinding) (h : FirstMatch groups keyval state g i kb) :
    scan_groups keyval state groups 0 = some (g, i, kb) :=
  (scan_groups_some_iff keyval state groups 0 g i kb).mpr ⟨g, by omega, h⟩

theorem first_match_of_scan_groups (keyval state : Nat) (groups : Registry) (g i : Nat)
    (kb : KeyBinding) (h : scan_groups keyval state groups 0 = some (g, i, kb)) :
    FirstMatch groups keyval state g i kb := by
  obtain ⟨g1, hg, hfm⟩ := (scan_groups_some_iff keyval state groups 0 g i kb).mp h
  have : g = g1 := by omega
  subst this
  exact hfm


/-! ## Dispatch: the registry scan -/

/-- The result of `keybindings_got_event` once the earlier stages have declined
and the registry scan has run. -/
theorem got_event_after_vte (a : Ambient) (groups : Registry) (ev : GdkEventKey)
    (hkey : ev.keyval ≠ 0) (hvte : vte_declines a groups ev) :
    keybindings_got_event a groups ev =
      match scan_groups (normalised_keyval ev) (normalised_state ev) groups 0 with
      | some (_, i, kb) =>
        match kb.cb_func with
        | none => .ok (false, [])
        | some f => .ok (true, [.cb_func f i])
      | none => .ok (check_fixed_kb a (normalised_keyval ev) (normalised_state ev)) := by
  unfold keybindings_got_event
  rw [if_neg hkey]
  have hstage : (if a.have_vte = true then
      check_vte a groups (normalised_state ev) (normalised_keyval ev)
      else .ok (false, [])) = .ok (false, []) := by
    rcases hvte with h | h
    · simp [h]
    · simp [h]
  simp only [hstage, check_snippet_completion, List.append_nil, List.nil_append]

/-- C1. Registry scan, first match wins: for a key event with a non-zero key
symbol that the terminal-passthrough stage does not claim (the snippet stage
claims nothing), if the first binding in declaration order whose chord is the
normalised chord of the event is `kb`, at index `i` of its group, and `kb` has
the callback `f`, then `keybindings_got_event` returns `TRUE` and its only call
is `f(i)`. -/
theorem C1_first_match_callback (a : Ambient) (groups : Registry) (ev : GdkEventKey)
    (g i : Nat) (kb : KeyBinding) (f : KBCallback)
    (hkey : ev.keyval ≠ 0) (hvte : vte_declines a groups ev)
    (hfirst : FirstMatch groups (normalised_keyval ev) (normalised_state ev) g i kb)
    (hcb : kb.cb_func = some f) :
    keybindings_got_event a groups ev = .ok (true, [.cb_func f i]) := by
  rw [got_event_after_vte a groups ev hkey hvte,
    scan_groups_eq_of_first_match _ _ groups g i kb hfirst]
  simp [hcb]

/-- C1, witness: on the default registry `n` with only Control set calls
`cb_func_file_action(GEANY_KEYS_MENU_NEW)`. -/
theorem C1_first_match_callback_witness :
    keybindings_got_event editor_focused default_registry
        { keyval := GDK_n, state := GDK_CONTROL_MASK } =
      .ok (true, [.cb_func .cb_func_file_action GEANY_KEYS_MENU_NEW]) :=
  C1_first_match_callback editor_focused default_registry
    { keyval := GDK_n, state := GDK_CONTROL_MASK } GEANY_KEYGROUP_FILE GEANY_KEYS_MENU_NEW
    { key := GDK_n, mods := GDK_CONTROL_MASK, name := some "menu_new", label := some "New",
      cb_func := some .cb_func_file_action }
    .cb_func_file_action (by decide) (Or.inr (by decide))
    (first_match_of_scan_groups _ _ _ _ _ _ (by decide)) rfl


/-- C2 (amended). Swallowed binding: when the terminal-passthrough stage does
not claim the event and the first binding in declaration order whose chord is
the normalised chord of the event has no callback, `keybindings_got_event`
returns `FALSE` ("ignore the keybinding") and makes no call at all, the
fixed-binding stage included. -/
theorem C2_first_match_without_callback (a : Ambient) (groups : Registry) (ev : GdkEventKey)
    (g i : Nat) (kb : KeyBinding) (hvte : vte_declines a groups ev)
    (hfirst : FirstMatch groups (normalised_keyval ev) (normalised_state ev) g i kb)
    (hcb : kb.cb_func = none) :
    keybindings_got_event a groups ev = .ok (false, []) := by
  by_cases hkey : ev.keyval = 0
  · simp [keybindings_got_event, hkey]
  · rw [got_event_after_vte a groups ev hkey hvte,
      scan_groups_eq_of_first_match _ _ groups g i kb hfirst]
    simp [hcb]

/-- C2, witness: a registry whose only binding is `x` without modifiers and
without callback declines `x` and calls nothing. -/
theorem C2_first_match_without_callback_witness :
    keybindings_got_event editor_focused
        [{ name := "Bindings", label := "Plugin",
           keys := [{ key := GDK_x, mods := 0, name := some "reserved",
                      label := some "Reserved", cb_func := none }] }]
        { keyval := GDK_x, state := 0 } = .ok (false, []) :=
  C2_first_match_without_callback editor_focused _ { keyval := GDK_x, state := 0 } 0 0
    { key := GDK_x, mods := 0, name := some "reserved", label := some "Reserved",
      cb_func := none }
    (Or.inr (by decide)) (first_match_of_scan_groups _ _ _ _ _ _ (by decide)) rfl

/-- C2, counterexample to the claim as stated: on the default registry, with
the editor focused, Tab without modifiers first matches `edit_completesnippet`
(Tags group), which has no callback; `keybindings_got_event` returns `FALSE`,
not `TRUE`. -/
theorem C2_counterexample :
    vte_declines editor_focused default_registry { keyval := GDK_Tab, state := 0 } ∧
    FirstMatch default_registry
      (normalised_keyval { keyval := GDK_Tab, state := 0 })
      (normalised_state { keyval := GDK_Tab, state := 0 })
      GEANY_KEYGROUP_TAGS GEANY_KEYS_EDIT_COMPLETESNIPPET
      { key := GDK_Tab, mods := 0, name := some "edit_completesnippet",
        label := some "Complete snippet", cb_func := none } ∧
    keybindings_got_event editor_focused default_registry { keyval := GDK_Tab, state := 0 } =
      .ok (false, []) ∧
    keybindings_got_event editor_focused default_registry { keyval := GDK_Tab, state := 0 } ≠
      .ok (true, []) :=
  ⟨Or.inr (by decide), first_match_of_scan_groups _ _ _ _ _ _ (by decide), by decide,
    by decide⟩


/-! ## Dispatch: terminal passthrough -/

theorem lookup_focus_item (groups : Registry) (fg : KeyBindingGroup) (i : Nat)
    (hfg : groups[GEANY_KEYGROUP_FOCUS]? = some fg) (hi : i < fg.keys.length) :
    keybindings_lookup_item groups GEANY_KEYGROUP_FOCUS i = .ok (some fg.keys[i]) := by
  unfold keybindings_lookup_item
  have h1 : GEANY_KEYGROUP_FOCUS < GEANY_KEYGROUP_COUNT := by decide
  simp [h1, hfg, KeyBindingGroup.count, hi]

theorem check_vte_focus_loop_no_match (groups : Registry) (state keyval : Nat)
    (fg : KeyBindingGroup) (hfg : groups[GEANY_KEYGROUP_FOCUS]? = some fg)
    (hno : ∀ (i : Nat) (kb : KeyBinding), fg.keys[i]? = some kb → ¬ has_chord kb keyval state)
    (n i0 : Nat) (hlen : i0 + n ≤ fg.keys.length) :
    check_vte_focus_loop groups state keyval n i0 = .ok false := by
  induction n generalizing i0 with
  | zero => rfl
  | succ n ih =>
    have hi : i0 < fg.keys.length := by omega
    unfold check_vte_focus_loop
    rw [lookup_focus_item groups fg i0 hfg hi]
    have hc := hno i0 fg.keys[i0] (by simp [hi])
    have hc1 : ¬ (state = fg.keys[i0].mods ∧ keyval = fg.keys[i0].key) :=
      fun h => hc ⟨h.2.symm, h.1.symm⟩
    simp only [hc1, if_false]
    exact ih (i0 + 1) (by omega)

theorem check_vte_focus_loop_match (groups : Registry) (state keyval : Nat)
    (fg : KeyBindingGroup) (hfg : groups[GEANY_KEYGROUP_FOCUS]? = some fg)
    (j : Nat) (kb : KeyBinding) (hkb : fg.keys[j]? = some kb) (hc : has_chord kb keyval state)
    (n i0 : Nat) (hlo : i0 ≤ j) (hhi : j < i0 + n) :
    check_vte_focus_loop groups state keyval n i0 = .ok true := by
  have hj : j < fg.keys.length := by
    rcases List.getElem?_eq_some_iff.mp hkb with ⟨h, _⟩
    exact h
  induction n generalizing i0 with
  | zero => omega
  | succ n ih =>
    have hi : i0 < fg.keys.length := by omega
    unfold check_vte_focus_loop
    rw [lookup_focus_item groups fg i0 hfg hi]
    by_cases hm : state = fg.keys[i0].mods ∧ keyval = fg.keys[i0].key
    · simp only [hm, and_self, if_true]
    · simp only [hm, if_false]
      have hne : i0 ≠ j := by
        intro h
        subst h
        have : fg.keys[i0] = kb := by
          have := List.getElem?_eq_getElem hi
          rw [this] at hkb
          exact Option.some.inj hkb
        rw [this] at hm
        exact hm ⟨hc.2.symm, hc.1.symm⟩
      exact ih (i0 + 1) (by omega) (by omega)

/-- C3. Terminal passthrough precedes the registry: when the terminal widget
exists and has the focus, its bash-keys option is on, the normalised event is
not on the denylist and no binding of the Focus group (the group at index
`GEANY_KEYGROUP_FOCUS`, holding at least `GEANY_KEYS_FOCUS_COUNT` bindings) has
its chord, `keybindings_got_event` returns `FALSE`; it calls no callback and
sets no notebook page, whatever the other groups bind: for a non-zero key
symbol its only calls are the four that suspend the menus, for key symbol 0 it
calls nothing. -/
theorem C3_terminal_passthrough (a : Ambient) (groups : Registry) (ev : GdkEventKey)
    (fg : KeyBindingGroup)
    (hvte : a.have_vte = true) (hfocus : a.focus = .vte) (hbash : a.enable_bash_keys = true)
    (hdeny : ¬ on_vte_denylist (normalised_keyval ev) (normalised_state ev))
    (hfg : groups[GEANY_KEYGROUP_FOCUS]? = some fg)
    (hcount : GEANY_KEYS_FOCUS_COUNT ≤ fg.count)
    (hnofocus : ∀ kb ∈ fg.keys,
      ¬ has_chord kb (normalised_keyval ev) (normalised_state ev)) :
    keybindings_got_event a groups ev =
      .ok (false,
        if ev.keyval = 0 then []
        else [.set_insensitive .menubar1, .idle_add_set_sensitive .menubar1,
              .set_insensitive .popup_menu, .idle_add_set_sensitive .popup_menu]) := by
  by_cases hkey : ev.keyval = 0
  · simp [keybindings_got_event, hkey]
  · have hloop := check_vte_focus_loop_no_match groups (normalised_state ev)
      (normalised_keyval ev) fg hfg
      (fun i kb hi => hnofocus kb (List.getElem?_mem hi)) GEANY_KEYS_FOCUS_COUNT 0
      (by simpa [KeyBindingGroup.count] using hcount)
    have hd1 : ¬ (normalised_state ev = GDK_SHIFT_MASK ∧
        (normalised_keyval ev ≥ GDK_a ∧ normalised_keyval ev ≤ GDK_z)) :=
      fun h => hdeny (Or.inl h)
    have hd2 : ¬ (normalised_state ev = 0 ∧
        (normalised_keyval ev < GDK_F1 ∨ normalised_keyval ev > GDK_F35)) :=
      fun h => hdeny (Or.inr h)
    have hcv : check_vte a groups (normalised_state ev) (normalised_keyval ev) =
        .ok (true, [.set_insensitive .menubar1, .idle_add_set_sensitive .menubar1,
              .set_insensitive .popup_menu, .idle_add_set_sensitive .popup_menu]) := by
      unfold check_vte
      rw [if_neg (by simp [hbash]), if_neg (by simp [hfocus]), if_neg hd1, if_neg hd2, hloop]
    unfold keybindings_got_event
    simp only [hkey, if_false, hvte, if_true, hcv]

/-- C3, witness: with the terminal focused, Control+n is left to the terminal
although the File group binds it to `menu_new`. -/
theorem C3_terminal_passthrough_witness :
    binding_at default_registry GEANY_KEYGROUP_FILE GEANY_KEYS_MENU_NEW =
      some { key := GDK_n, mods := GDK_CONTROL_MASK, name := some "menu_new",
             label := some "New", cb_func := some .cb_func_file_action } ∧
    keybindings_got_event terminal_focused default_registry
        { keyval := GDK_n, state := GDK_CONTROL_MASK } =
      .ok (false,
        [.set_insensitive .menubar1, .idle_add_set_sensitive .menubar1,
         .set_insensitive .popup_menu, .idle_add_set_sensitive .popup_menu]) :=
  ⟨by decide,
   C3_terminal_passthrough terminal_focused default_registry
    { keyval := GDK_n, state := GDK_CONTROL_MASK }
    { name := "Bindings", label := "Focus commands",
      keys := [
        { key := GDK_F2, mods := 0, name := some "switch_editor",
          label := some "Switch to Editor", cb_func := some .cb_func_switch_editor },
        { key := GDK_F6, mods := 0, name := some "switch_scribble",
          label := some "Switch to Scribble", cb_func := some .cb_func_switch_scribble },
        { key := GDK_F4, mods := 0, name := some "switch_vte",
          label := some "Switch to VTE", cb_func := some .cb_func_switch_vte },
        { key := GDK_F7, mods := 0, name := some "switch_search_bar",
          label := some "Switch to Search Bar", cb_func := some .cb_func_switch_search_bar }] }
    rfl rfl rfl (by decide) (by decide) (by decide) (by decide)⟩


/-- C4. Focus bindings beat terminal passthrough: when the normalised chord of
the event is the chord of the binding `kb` at index `j` (below
`GEANY_KEYS_FOCUS_COUNT`) of the Focus group, `check_vte` returns `FALSE` and
calls nothing (no menu is made insensitive), in every ambient state and so also
with the terminal focused and bash keys enabled; and if the key symbol is not 0
(the event gets past line 844), no binding earlier in declaration order has the
chord, and `kb` has the callback `f`, then `keybindings_got_event` returns
`TRUE` and its only call is `f(j)`. -/
theorem C4_focus_beats_terminal (a : Ambient) (groups : Registry) (ev : GdkEventKey)
    (fg : KeyBindingGroup) (j : Nat) (kb : KeyBinding)
    (hfg : groups[GEANY_KEYGROUP_FOCUS]? = some fg)
    (hj : j < GEANY_KEYS_FOCUS_COUNT) (hkb : fg.keys[j]? = some kb)
    (hchord : has_chord kb (normalised_keyval ev) (normalised_state ev)) :
    check_vte a groups (normalised_state ev) (normalised_keyval ev) = .ok (false, []) ∧
    ∀ f, ev.keyval ≠ 0 →
      FirstMatch groups (normalised_keyval ev) (normalised_state ev) GEANY_KEYGROUP_FOCUS j kb →
      kb.cb_func = some f →
      keybindings_got_event a groups ev = .ok (true, [.cb_func f j]) := by
  have hloop := check_vte_focus_loop_match groups (normalised_state ev) (normalised_keyval ev)
    fg hfg j kb hkb hchord GEANY_KEYS_FOCUS_COUNT 0 (by omega) (by omega)
  have hcv : check_vte a groups (normalised_state ev) (normalised_keyval ev) =
      .ok (false, []) := by
    unfold check_vte
    rw [hloop]
    split_ifs <;> rfl
  refine ⟨hcv, ?_⟩
  intro f hkey hfirst hcb
  rw [got_event_after_vte a groups ev hkey (Or.inr hcv),
    scan_groups_eq_of_first_match _ _ groups _ j kb hfirst]
  simp [hcb]

/-- C4, witness: with the terminal focused and bash keys enabled, F4 is not
passed to the terminal but calls `cb_func_switch_vte`. -/
theorem C4_focus_beats_terminal_witness :
    check_vte terminal_focused default_registry
        (normalised_state { keyval := GDK_F4, state := 0 })
        (normalised_keyval { keyval := GDK_F4, state := 0 }) = .ok (false, []) ∧
    keybindings_got_event terminal_focused default_registry { keyval := GDK_F4, state := 0 } =
      .ok (true, [.cb_func .cb_func_switch_vte GEANY_KEYS_SWITCH_VTE]) :=
  have h := C4_focus_beats_terminal terminal_focused default_registry
    { keyval := GDK_F4, state := 0 }
    { name := "Bindings", label := "Focus commands",
      keys := [
        { key := GDK_F2, mods := 0, name := some "switch_editor",
          label := some "Switch to Editor", cb_func := some .cb_func_switch_editor },
        { key := GDK_F6, mods := 0, name := some "switch_scribble",
          label := some "Switch to Scribble", cb_func := some .cb_func_switch_scribble },
        { key := GDK_F4, mods := 0, name := some "switch_vte",
          label := some "Switch to VTE", cb_func := some .cb_func_switch_vte },
        { key := GDK_F7, mods := 0, name := some "switch_search_bar",
          label := some "Switch to Search Bar", cb_func := some .cb_func_switch_search_bar }] }
    GEANY_KEYS_SWITCH_VTE
    { key := GDK_F4, mods := 0, name := some "switch_vte",
      label := some "Switch to VTE", cb_func := some .cb_func_switch_vte }
    rfl (by decide) rfl (by decide)
  ⟨h.1, h.2 .cb_func_switch_vte (by decide)
    (first_match_of_scan_groups _ _ _ _ _ _ (by decide)) rfl⟩


/-! ## Dispatch: order of the registry scan and the fixed bindings -/

/-- C5. User bindings take precedence over fixed bindings: for an event that
reaches the registry scan (non-zero key symbol, not claimed by the terminal
stage), if some binding has the normalised chord, then the result of
`keybindings_got_event` is that of the first binding `kb` with the chord, at
index `i` of its group: `TRUE` and the one call `f(i)` when `kb` has the
callback `f`, `FALSE` and no call when it has none.  The result of
`check_fixed_kb` is not part of it and no `gtk_notebook_set_current_page` call
is made. -/
theorem C5_bindings_before_fixed (a : Ambient) (groups : Registry) (ev : GdkEventKey)
    (g0 i0 : Nat) (kb0 : KeyBinding)
    (hkey : ev.keyval ≠ 0) (hvte : vte_declines a groups ev)
    (hbound : binding_at groups g0 i0 = some kb0)
    (hchord : has_chord kb0 (normalised_keyval ev) (normalised_state ev)) :
    ∃ g i kb r,
      FirstMatch groups (normalised_keyval ev) (normalised_state ev) g i kb ∧
      keybindings_got_event a groups ev = .ok r ∧
      r = (match kb.cb_func with
           | some f => (true, [.cb_func f i])
           | none => (false, [])) ∧
      ∀ page, Action.notebook_set_current_page page ∉ r.2 := by
  cases hs : scan_groups (normalised_keyval ev) (normalised_state ev) groups 0 with
  | none =>
    exact absurd hchord ((scan_groups_none_iff _ _ groups 0).mp hs g0 i0 kb0 hbound)
  | some hit =>
    obtain ⟨g, i, kb⟩ := hit
    refine ⟨g, i, kb, _, first_match_of_scan_groups _ _ groups g i kb hs, ?_, rfl, ?_⟩
    · rw [got_event_after_vte a groups ev hkey hvte, hs]
      cases hcb : kb.cb_func <;> simp [hcb]
    · intro page
      cases hcb : kb.cb_func <;> simp

/-- C5, witness: with a binding on Alt+1 that has a callback, Alt+1 calls that
callback and selects no tab, although Alt+1 is a fixed binding. -/
theorem C5_bindings_before_fixed_witness :
    check_fixed_kb editor_focused GDK_1 GDK_MOD1_MASK =
      (true, [.notebook_set_current_page 0]) ∧
    keybindings_got_event editor_focused
        [{ name := "Bindings", label := "File menu",
           keys := [{ key := GDK_1, mods := GDK_MOD1_MASK, name := some "menu_new",
                      label := some "New", cb_func := some .cb_func_file_action }] }]
        { keyval := GDK_1, state := GDK_MOD1_MASK } =
      .ok (true, [.cb_func .cb_func_file_action 0]) ∧
    ∃ g i kb r,
      FirstMatch
        [{ name := "Bindings", label := "File menu",
           keys := [{ key := GDK_1, mods := GDK_MOD1_MASK, name := some "menu_new",
                      label := some "New", cb_func := some .cb_func_file_action }] }]
        (normalised_keyval { keyval := GDK_1, state := GDK_MOD1_MASK })
        (normalised_state { keyval := GDK_1, state := GDK_MOD1_MASK }) g i kb ∧
      keybindings_got_event editor_focused
        [{ name := "Bindings", label := "File menu",
           keys := [{ key := GDK_1, mods := GDK_MOD1_MASK, name := some "menu_new",
                      label := some "New", cb_func := some .cb_func_file_action }] }]
        { keyval := GDK_1, state := GDK_MOD1_MASK } = .ok r ∧
      r = (match kb.cb_func with
           | some f => (true, [.cb_func f i])
           | none => (false, [])) ∧
      ∀ page, Action.notebook_set_current_page page ∉ r.2 :=
  ⟨by decide, by decide,
   C5_bindings_before_fixed editor_focused _ { keyval := GDK_1, state := GDK_MOD1_MASK } 0 0
    { key := GDK_1, mods := GDK_MOD1_MASK, name := some "menu_new", label := some "New",
      cb_func := some .cb_func_file_action }
    (by decide) (Or.inr (by decide)) rfl (by decide)⟩

/-! ## Dispatch: normalisation -/

theorem normalised_keyval_upper (K mask : Nat) (hK : GDK_A ≤ K ∧ K ≤ GDK_Z)
    (hshift : mask &&& GDK_SHIFT_MASK ≠ 0) :
    normalised_keyval { keyval := K, state := mask } = K + (GDK_a - GDK_A) := by
  unfold normalised_keyval
  rw [if_pos]
  exact ⟨Or.inl hshift, hK.1, hK.2⟩

theorem normalised_keyval_lower (K mask : Nat) (hK : GDK_A ≤ K ∧ K ≤ GDK_Z) :
    normalised_keyval { keyval := K + (GDK_a - GDK_A), state := mask } =
      K + (GDK_a - GDK_A) := by
  unfold normalised_keyval
  rw [if_neg]
  rintro ⟨_, _, h⟩
  simp only [GDK_a, GDK_A, GDK_Z] at h hK
  omega

/-- C6. Shift+letter normalisation: for an uppercase Latin letter symbol `K` in
`A..Z` and a raw modifier mask with the Shift bit set, `keybindings_got_event`
on `(K, mask)` and on (lowercase of `K`, `mask`) gives the same result: the same
`gboolean` and the same calls with the same arguments, or the same fault, in
every ambient state and registry. -/
theorem C6_shift_letter_normalisation (a : Ambient) (groups : Registry) (K mask : Nat)
    (hK : GDK_A ≤ K ∧ K ≤ GDK_Z) (hshift : mask &&& GDK_SHIFT_MASK ≠ 0) :
    keybindings_got_event a groups { keyval := K, state := mask } =
      keybindings_got_event a groups { keyval := K + (GDK_a - GDK_A), state := mask } := by
  have h1 := normalised_keyval_upper K mask hK hshift
  have h2 := normalised_keyval_lower K mask hK
  have hK0 : K ≠ 0 := by
    simp only [GDK_A] at hK
    omega
  have hk0 : K + (GDK_a - GDK_A) ≠ 0 := by omega
  unfold keybindings_got_event
  simp only [hK0, hk0, if_false, h1, h2, normalised_state]

/-- C6, witness: with Shift and Control set, `R` and `r` both call
`cb_func_reloadtaglist` on the default registry. -/
theorem C6_shift_letter_normalisation_witness :
    keybindings_got_event editor_focused default_registry
        { keyval := GDK_R, state := GDK_SHIFT_MASK ||| GDK_CONTROL_MASK } =
      keybindings_got_event editor_focused default_registry
        { keyval := GDK_R + (GDK_a - GDK_A), state := GDK_SHIFT_MASK ||| GDK_CONTROL_MASK } ∧
    GDK_R + (GDK_a - GDK_A) = GDK_r ∧
    keybindings_got_event editor_focused default_registry
        { keyval := GDK_R, state := GDK_SHIFT_MASK ||| GDK_CONTROL_MASK } =
      .ok (true, [.cb_func .cb_func_reloadtaglist GEANY_KEYS_RELOADTAGLIST]) :=
  ⟨C6_shift_letter_normalisation editor_focused default_registry GDK_R
    (GDK_SHIFT_MASK ||| GDK_CONTROL_MASK) (by decide) (by decide), by decide, by decide⟩


/-! ## Dispatch: the unbound sentinel and declined events -/

theorem normalised_keyval_ne_zero (ev : GdkEventKey) (h : ev.keyval ≠ 0) :
    normalised_keyval ev ≠ 0 := by
  unfold normalised_keyval
  split_ifs <;> omega

theorem check_vte_result (a : Ambient) (groups : Registry) (state keyval : Nat)
    (r : Bool × List Action) (h : check_vte a groups state keyval = .ok r) :
    r = (false, []) ∨
    r = (true, [.set_insensitive .menubar1, .idle_add_set_sensitive .menubar1,
                .set_insensitive .popup_menu, .idle_add_set_sensitive .popup_menu]) := by
  unfold check_vte at h
  split_ifs at h
  · exact Or.inl (Except.ok.inj h).symm
  · exact Or.inl (Except.ok.inj h).symm
  · exact Or.inl (Except.ok.inj h).symm
  · exact Or.inl (Except.ok.inj h).symm
  · split at h
    · cases h
    · exact Or.inl (Except.ok.inj h).symm
    · exact Or.inr (Except.ok.inj h).symm

theorem check_fixed_kb_calls (a : Ambient) (keyval state : Nat) (f : KBCallback) (i : Nat) :
    Action.cb_func f i ∉ (check_fixed_kb a keyval state).2 := by
  unfold check_fixed_kb
  split_ifs <;> simp

/-- C7. Unbound sentinel never matches: an event with key symbol 0 is declined
with no call; for any other event the binding that the registry scan selects
has a non-zero key; and whenever `keybindings_got_event` calls a callback `f(i)`,
a binding at index `i` of some group has the callback `f`, a non-zero key and
the normalised chord of the event. -/
theorem C7_unbound_never_matches (a : Ambient) (groups : Registry) (ev : GdkEventKey) :
    (ev.keyval = 0 → keybindings_got_event a groups ev = .ok (false, [])) ∧
    (∀ g i kb, ev.keyval ≠ 0 →
      scan_groups (normalised_keyval ev) (normalised_state ev) groups 0 = some (g, i, kb) →
      kb.key ≠ 0) ∧
    (∀ r f i, keybindings_got_event a groups ev = .ok r → Action.cb_func f i ∈ r.2 →
      ∃ g kb, binding_at groups g i = some kb ∧ kb.cb_func = some f ∧ kb.key ≠ 0 ∧
        has_chord kb (normalised_keyval ev) (normalised_state ev)) := by
  have hscan : ∀ g i kb, ev.keyval ≠ 0 →
      scan_groups (normalised_keyval ev) (normalised_state ev) groups 0 = some (g, i, kb) →
      kb.key ≠ 0 := by
    intro g i kb hkey hs
    have hfm := first_match_of_scan_groups _ _ groups g i kb hs
    rw [hfm.2.1.1]
    exact normalised_keyval_ne_zero ev hkey
  refine ⟨?_, hscan, ?_⟩
  · intro hkey
    simp [keybindings_got_event, hkey]
  · intro r f i hr hmem
    by_cases hkey : ev.keyval = 0
    · simp [keybindings_got_event, hkey] at hr
      subst hr
      simp at hmem
    · by_cases hv : vte_declines a groups ev
      · rw [got_event_after_vte a groups ev hkey hv] at hr
        cases hs : scan_groups (normalised_keyval ev) (normalised_state ev) groups 0 with
        | none =>
          rw [hs] at hr
          simp only [Except.ok.injEq] at hr
          subst hr
          exact absurd hmem (check_fixed_kb_calls a _ _ f i)
        | some hit =>
          obtain ⟨g, j, kb⟩ := hit
          rw [hs] at hr
          have hfm := first_match_of_scan_groups _ _ groups g j kb hs
          cases hcb : kb.cb_func with
          | none =>
            simp only [hcb, Except.ok.injEq] at hr
            subst hr
            simp at hmem
          | some f1 =>
            simp only [hcb, Except.ok.injEq] at hr
            subst hr
            simp only [List.mem_singleton, Action.cb_func.injEq] at hmem
            obtain ⟨hf, hi⟩ := hmem
            subst hf hi
            exact ⟨g, kb, hfm.1, hcb, hscan g i kb hkey hs, hfm.2.1⟩
      · have hv1 : a.have_vte = true := by
          cases h : a.have_vte
          · exact absurd (Or.inl h) hv
          · rfl
        unfold keybindings_got_event at hr
        simp only [hkey, if_false, hv1, if_true] at hr
        cases hc : check_vte a groups (normalised_state ev) (normalised_keyval ev) with
        | error e =>
          rw [hc] at hr
          cases hr
        | ok p =>
          rcases check_vte_result a groups _ _ p hc with hp | hp
          · subst hp
            exact absurd (Or.inr hc) hv
          · subst hp
            rw [hc] at hr
            simp only [Except.ok.injEq] at hr
            subst hr
            simp at hmem

/-- C7, witness: on the default registry an event with key symbol 0 and no
modifiers is declined with no call, although many bindings, `menu_saveas`
among them, are unbound with chord `(0, 0)`. -/
theorem C7_unbound_never_matches_witness :
    binding_at default_registry GEANY_KEYGROUP_FILE GEANY_KEYS_MENU_SAVEAS =
      some { key := 0, mods := 0, name := some "menu_saveas", label := some "Save as",
             cb_func := some .cb_func_file_action } ∧
    keybindings_got_event editor_focused default_registry { keyval := 0, state := 0 } =
      .ok (false, []) :=
  ⟨by decide,
   (C7_unbound_never_matches editor_focused default_registry { keyval := 0, state := 0 }).1 rfl⟩

/-- C8. Declined when nothing matches: when the terminal-passthrough stage does
not claim the event, no binding has the normalised chord, and the event is
neither a digit `0..9` with Alt set nor PageUp or PageDown with normalised
modifiers exactly Control+Shift, `keybindings_got_event` returns `FALSE` and
makes no call: no callback, no notebook page. -/
theorem C8_declined_when_nothing_matches (a : Ambient) (groups : Registry) (ev : GdkEventKey)
    (hvte : vte_declines a groups ev)
    (hnone : ∀ g i kb, binding_at groups g i = some kb →
      ¬ has_chord kb (normalised_keyval ev) (normalised_state ev))
    (hdigit : ¬ (ev.state &&& GDK_MOD1_MASK ≠ 0 ∧ GDK_0 ≤ ev.keyval ∧ ev.keyval ≤ GDK_9))
    (hpage : ¬ ((ev.keyval = GDK_Page_Up ∨ ev.keyval = GDK_Page_Down) ∧
      normalised_state ev = (GDK_CONTROL_MASK ||| GDK_SHIFT_MASK))) :
    keybindings_got_event a groups ev = .ok (false, []) := by
  by_cases hkey : ev.keyval = 0
  · simp [keybindings_got_event, hkey]
  · rw [got_event_after_vte a groups ev hkey hvte,
      (scan_groups_none_iff _ _ groups 0).mpr hnone]
    simp only
    have hkv : normalised_keyval ev = ev.keyval ∨
        (GDK_a ≤ normalised_keyval ev ∧ normalised_keyval ev ≤ GDK_z) := by
      unfold normalised_keyval
      split_ifs with h
      · right
        simp only [GDK_a, GDK_A, GDK_Z, GDK_z] at h ⊢
        omega
      · left; rfl
    have halt : normalised_state ev &&& GDK_MOD1_MASK = ev.state &&& GDK_MOD1_MASK := by
      unfold normalised_state
      rw [Nat.land_assoc]
      rfl
    have hd : ¬ (normalised_state ev &&& GDK_MOD1_MASK ≠ 0 ∧ normalised_keyval ev ≥ GDK_0 ∧
        normalised_keyval ev ≤ GDK_9) := by
      rw [halt]
      rintro ⟨h1, h2, h3⟩
      rcases hkv with hk | hk
      · rw [hk] at h2 h3
        exact hdigit ⟨h1, h2, h3⟩
      · simp only [GDK_a, GDK_0, GDK_9] at hk h2 h3
        omega
    unfold check_fixed_kb
    rw [if_neg hd]
    by_cases hp : normalised_keyval ev = GDK_Page_Up ∨ normalised_keyval ev = GDK_Page_Down
    · rw [if_pos hp]
      have hp1 : ev.keyval = GDK_Page_Up ∨ ev.keyval = GDK_Page_Down := by
        rcases hkv with hk | hk
        · rw [hk] at hp; exact hp
        · simp only [GDK_a, GDK_z, GDK_Page_Up, GDK_Page_Down] at hk hp
          omega
      rw [if_neg (fun h => hpage ⟨hp1, h⟩)]
    · rw [if_neg hp]

/-- C8, witness: on the default registry, with the editor focused, the plain
letter `q` is bound nowhere and is declined. -/
theorem C8_declined_when_nothing_matches_witness :
    keybindings_got_event editor_focused default_registry { keyval := 0x071, state := 0 } =
      .ok (false, []) :=
  C8_declined_when_nothing_matches editor_focused default_registry
    { keyval := 0x071, state := 0 } (Or.inr (by decide))
    (fun g i kb hb => (scan_groups_none_iff _ _ default_registry 0).mp (by decide) g i kb hb)
    (by decide) (by decide)


/-! ## Dispatch: the snippet-completion stage -/

/-- C9. The snippet-completion stage is switched off: `check_snippet_completion`
returns `FALSE` and calls nothing for every key and state
(`return FALSE; /* tmp */`).  On the default registry, with the editor widget of
a valid document focused, snippet completion enabled and a collaborator that
would consume the keystroke, Tab without modifiers (the chord of
`edit_completesnippet`) never reaches `editor_complete_snippet`:
`keybindings_got_event` returns `FALSE` with no call. -/
theorem C9_snippet_stage_never_claims :
    (∀ keyval state, check_snippet_completion keyval state = (false, [])) ∧
    binding_at default_registry GEANY_KEYGROUP_TAGS GEANY_KEYS_EDIT_COMPLETESNIPPET =
      some { key := GDK_Tab, mods := 0, name := some "edit_completesnippet",
             label := some "Complete snippet", cb_func := none } ∧
    editor_focused.focus = .sci ∧ editor_focused.complete_snippets = true ∧
    editor_focused.editor_complete_snippet = true ∧
    keybindings_got_event editor_focused default_registry { keyval := GDK_Tab, state := 0 } =
      .ok (false, []) :=
  ⟨fun _ _ => rfl, by decide, rfl, rfl, rfl, by decide⟩

/-! ## The user override loader -/

theorem get_keyfile_kb_config (parse : String → Nat × Nat) (group : KeyBindingGroup)
    (kb : KeyBinding) (config : GKeyFile) :
    (get_keyfile_kb parse group kb config).2 = config := by
  unfold get_keyfile_kb
  split <;> rfl

theorem foreach_keys_get_keyfile_kb (parse : String → Nat × Nat) (group : KeyBindingGroup)
    (keys : List KeyBinding) (config : GKeyFile) :
    keybindings_foreach_keys (get_keyfile_kb parse) group keys config =
      (keys.map (fun kb => (get_keyfile_kb parse group kb config).1), config) := by
  induction keys with
  | nil => rfl
  | cons kb rest ih =>
    have h := get_keyfile_kb_config parse group kb config
    simp only [keybindings_foreach_keys, List.map_cons]
    rw [h, ih]

theorem foreach_get_keyfile_kb (parse : String → Nat × Nat) (groups : Registry)
    (config : GKeyFile) :
    keybindings_foreach (get_keyfile_kb parse) groups config =
      (groups.map (fun group =>
        { group with
          keys := group.keys.map (fun kb => (get_keyfile_kb parse group kb config).1) }),
       config) := by
  induction groups with
  | nil => rfl
  | cons group rest ih =>
    simp only [keybindings_foreach, List.map_cons, foreach_keys_get_keyfile_kb]
    rw [ih]

/-- C10. User override loader: for the binding `kb` at index `i` of the group
`group` at index `g`, after `load_user_kb` the registry has as many groups, the
group at index `g` has the same name, label and count, and the binding at index
`i` of it has the same name, label and callback; its `(key, mods)` is the result
of `gtk_accelerator_parse` on the value stored under section `group.name` and
key `kb.name` when the file loaded and holds one, and is unchanged when the
file did not load or holds no such key. -/
theorem C10_load_user_kb (parse : String → Nat × Nat) (file : Option GKeyFile)
    (groups : Registry) (g i : Nat) (group : KeyBindingGroup) (kb : KeyBinding)
    (hg : groups[g]? = some group) (hi : group.keys[i]? = some kb) :
    (load_user_kb parse file groups).length = groups.length ∧
    ∃ group1 kb1,
      (load_user_kb parse file groups)[g]? = some group1 ∧ group1.keys[i]? = some kb1 ∧
      group1.name = group.name ∧ group1.label = group.label ∧ group1.count = group.count ∧
      kb1.name = kb.name ∧ kb1.label = kb.label ∧ kb1.cb_func = kb.cb_func ∧
      (kb1.key, kb1.mods) =
        (match file with
         | some config =>
           match g_key_file_get_string config group.name kb.name with
           | some val => parse val
           | none => (kb.key, kb.mods)
         | none => (kb.key, kb.mods)) := by
  cases file with
  | none =>
    exact ⟨rfl, group, kb, hg, hi, rfl, rfl, rfl, rfl, rfl, rfl, rfl⟩
  | some config =>
    simp only [load_user_kb, foreach_get_keyfile_kb, List.length_map, List.getElem?_map, hg,
      Option.map_some', true_and]
    refine ⟨_, (get_keyfile_kb parse group kb config).1, rfl, ?_, rfl, rfl, ?_, ?_⟩
    · simp [hi]
    · simp [KeyBindingGroup.count]
    · unfold get_keyfile_kb
      cases g_key_file_get_string config group.name kb.name <;> simp

/-- C10, witness: loading a store that holds `menu_new` under `Bindings` into
the default registry gives `menu_new` the parsed chord and keeps its name,
label and callback. -/
theorem C10_load_user_kb_witness :
    (load_user_kb (fun val => if val = "<Control><Shift>n" then (GDK_n, 5) else (0, 0))
      (some [(("Bindings", "menu_new"), "<Control><Shift>n")]) default_registry).length =
      default_registry.length ∧
    ∃ group1 kb1,
      (load_user_kb (fun val => if val = "<Control><Shift>n" then (GDK_n, 5) else (0, 0))
        (some [(("Bindings", "menu_new"), "<Control><Shift>n")]) default_registry)[0]? =
        some group1 ∧
      group1.keys[0]? = some kb1 ∧
      group1.name = "Bindings" ∧ group1.label = "File menu" ∧ group1.count = 11 ∧
      kb1.name = some "menu_new" ∧ kb1.label = some "New" ∧
      kb1.cb_func = some .cb_func_file_action ∧
      (kb1.key, kb1.mods) = (GDK_n, 5) :=
  C10_load_user_kb (fun val => if val = "<Control><Shift>n" then (GDK_n, 5) else (0, 0))
    (some [(("Bindings", "menu_new"), "<Control><Shift>n")]) default_registry 0 0
    (default_registry.headD (add_kb_group "" "" 0))
    { key := GDK_n, mods := GDK_CONTROL_MASK, name := some "menu_new", label := some "New",
      cb_func := some .cb_func_file_action }
    (by decide) (by decide)


/-! ## The loader on single bindings -/

theorem binding_at_load_user_kb (parse : String → Nat × Nat) (config : GKeyFile)
    (groups : Registry) (g i : Nat) (group : KeyBindingGroup) (kb : KeyBinding)
    (hg : groups[g]? = some group) (hi : group.keys[i]? = some kb) :
    binding_at (load_user_kb parse (some config) groups) g i =
      some (get_keyfile_kb parse group kb config).1 := by
  simp [binding_at, load_user_kb, foreach_get_keyfile_kb, List.getElem?_map, hg, hi]

/-- C11 (amended). Unparseable override unbinds: when the file loaded and the
value stored under section `group.name` and key `kb.name` is a text on which
`gtk_accelerator_parse` reports failure (key 0 and mods 0), after `load_user_kb`
the binding has key 0 and mods 0, whatever its chord was before; its name,
label and callback are unchanged. -/
theorem C11_unparseable_override_unbinds (parse : String → Nat × Nat) (config : GKeyFile)
    (groups : Registry) (g i : Nat) (group : KeyBindingGroup) (kb : KeyBinding) (val : String)
    (hg : groups[g]? = some group) (hi : group.keys[i]? = some kb)
    (hval : g_key_file_get_string config group.name kb.name = some val)
    (hfail : parse val = (0, 0)) :
    binding_at (load_user_kb parse (some config) groups) g i =
      some { kb with key := 0, mods := 0 } := by
  rw [binding_at_load_user_kb parse config groups g i group kb hg hi]
  simp [get_keyfile_kb, hval, hfail]

/-- C11, witness: an unparseable value for `menu_new` leaves `menu_new`
unbound. -/
theorem C11_unparseable_override_unbinds_witness :
    binding_at
        (load_user_kb example_parse (some [(("Bindings", "menu_new"), "<Control>")])
          default_registry)
        GEANY_KEYGROUP_FILE GEANY_KEYS_MENU_NEW =
      some { key := 0, mods := 0, name := some "menu_new", label := some "New",
             cb_func := some .cb_func_file_action } :=
  C11_unparseable_override_unbinds example_parse [(("Bindings", "menu_new"), "<Control>")]
    default_registry GEANY_KEYGROUP_FILE GEANY_KEYS_MENU_NEW
    (default_registry.headD (add_kb_group "" "" 0))
    { key := GDK_n, mods := GDK_CONTROL_MASK, name := some "menu_new", label := some "New",
      cb_func := some .cb_func_file_action }
    "<Control>" (by decide) (by decide) (by decide) (by decide)

/-- C11, counterexample to the claim as stated: `save` is bound to Control+s by
default; a store that holds the unparseable text `Ctrl-S` for `menu_save`
loads, the parser reports failure on it, and after `load_user_kb` the binding
has the chord `(0, 0)`, not its chord before the load. -/
theorem C11_counterexample :
    binding_at default_registry GEANY_KEYGROUP_FILE GEANY_KEYS_MENU_SAVE =
      some { key := GDK_s, mods := GDK_CONTROL_MASK, name := some "menu_save",
             label := some "Save", cb_func := some .cb_func_file_action } ∧
    g_key_file_get_string [(("Bindings", "menu_save"), "Ctrl-S")] "Bindings"
      (some "menu_save") = some "Ctrl-S" ∧
    example_parse "Ctrl-S" = (0, 0) ∧
    binding_at
        (load_user_kb example_parse (some [(("Bindings", "menu_save"), "Ctrl-S")])
          default_registry)
        GEANY_KEYGROUP_FILE GEANY_KEYS_MENU_SAVE =
      some { key := 0, mods := 0, name := some "menu_save", label := some "Save",
             cb_func := some .cb_func_file_action } ∧
    (0, 0) ≠ (GDK_s, GDK_CONTROL_MASK) := by
  decide


theorem get_keyfile_kb_single (parse : String → Nat × Nat) (group : KeyBindingGroup)
    (kb : KeyBinding) (group_name key val : String) (chord : Nat × Nat)
    (hparse : parse val = chord) :
    (get_keyfile_kb parse group kb [((group_name, key), val)]).1 =
      (get_keyfile_kb (fun _ => chord) group kb [((group_name, key), "")]).1 := by
  unfold get_keyfile_kb g_key_file_get_string
  cases kb.name with
  | none => rfl
  | some k =>
    by_cases h : (group_name, key) = (group.name, k)
    · simp [List.find?, h, hparse]
    · simp [List.find?, h]

theorem load_user_kb_single (parse : String → Nat × Nat) (groups : Registry)
    (group_name key val : String) (chord : Nat × Nat) (hparse : parse val = chord) :
    load_user_kb parse (some [((group_name, key), val)]) groups =
      load_user_kb (fun _ => chord) (some [((group_name, key), "")]) groups := by
  simp only [load_user_kb, foreach_get_keyfile_kb]
  apply List.map_congr_left
  intro group _
  congr 1
  apply List.map_congr_left
  intro kb _
  exact get_keyfile_kb_single parse group kb group_name key val chord hparse

theorem check_vte_unfocused (a : Ambient) (groups : Registry) (state keyval : Nat)
    (hfocus : a.focus ≠ .vte) : check_vte a groups state keyval = .ok (false, []) := by
  unfold check_vte
  split_ifs <;> rfl

/-- C12. Override end to end: start from the default registry and load a store
whose only entry, in section `Bindings`, maps `menu_new` to a text that
`gtk_accelerator_parse` reads as key `n` with Control+Shift.  Then, with the
focus not on the terminal, `n` with only Control set is declined with no call,
and `N` as well as `n` with exactly Control+Shift set call
`cb_func_file_action(GEANY_KEYS_MENU_NEW)` and are reported handled. -/
theorem C12_override_end_to_end (parse : String → Nat × Nat) (val : String) (a : Ambient)
    (hparse : parse val = (GDK_n, GDK_CONTROL_MASK ||| GDK_SHIFT_MASK))
    (hfocus : a.focus ≠ .vte) :
    keybindings_got_event a
        (load_user_kb parse (some [(("Bindings", "menu_new"), val)]) default_registry)
        { keyval := GDK_n, state := GDK_CONTROL_MASK } = .ok (false, []) ∧
    keybindings_got_event a
        (load_user_kb parse (some [(("Bindings", "menu_new"), val)]) default_registry)
        { keyval := GDK_N, state := GDK_CONTROL_MASK ||| GDK_SHIFT_MASK } =
      .ok (true, [.cb_func .cb_func_file_action GEANY_KEYS_MENU_NEW]) ∧
    keybindings_got_event a
        (load_user_kb parse (some [(("Bindings", "menu_new"), val)]) default_registry)
        { keyval := GDK_n, state := GDK_CONTROL_MASK ||| GDK_SHIFT_MASK } =
      .ok (true, [.cb_func .cb_func_file_action GEANY_KEYS_MENU_NEW]) := by
  rw [load_user_kb_single parse default_registry "Bindings" "menu_new" val _ hparse]
  refine ⟨?_, ?_, ?_⟩
  · rw [got_event_after_vte a _ _ (by decide) (Or.inr (check_vte_unfocused a _ _ _ hfocus))]
    have hs : scan_groups (normalised_keyval { keyval := GDK_n, state := GDK_CONTROL_MASK })
        (normalised_state { keyval := GDK_n, state := GDK_CONTROL_MASK })
        (load_user_kb (fun _ => (GDK_n, GDK_CONTROL_MASK ||| GDK_SHIFT_MASK))
          (some [(("Bindings", "menu_new"), "")]) default_registry) 0 = none := by
      decide
    rw [hs]
    rfl
  · rw [got_event_after_vte a _ _ (by decide) (Or.inr (check_vte_unfocused a _ _ _ hfocus))]
    have hs : scan_groups
        (normalised_keyval { keyval := GDK_N, state := GDK_CONTROL_MASK ||| GDK_SHIFT_MASK })
        (normalised_state { keyval := GDK_N, state := GDK_CONTROL_MASK ||| GDK_SHIFT_MASK })
        (load_user_kb (fun _ => (GDK_n, GDK_CONTROL_MASK ||| GDK_SHIFT_MASK))
          (some [(("Bindings", "menu_new"), "")]) default_registry) 0 =
        some (0, 0, { key := GDK_n, mods := GDK_CONTROL_MASK ||| GDK_SHIFT_MASK,
                      name := some "menu_new", label := some "New",
                      cb_func := some .cb_func_file_action }) := by
      decide
    rw [hs]
    rfl
  · rw [got_event_after_vte a _ _ (by decide) (Or.inr (check_vte_unfocused a _ _ _ hfocus))]
    have hs : scan_groups
        (normalised_keyval { keyval := GDK_n, state := GDK_CONTROL_MASK ||| GDK_SHIFT_MASK })
        (normalised_state { keyval := GDK_n, state := GDK_CONTROL_MASK ||| GDK_SHIFT_MASK })
        (load_user_kb (fun _ => (GDK_n, GDK_CONTROL_MASK ||| GDK_SHIFT_MASK))
          (some [(("Bindings", "menu_new"), "")]) default_registry) 0 =
        some (0, 0, { key := GDK_n, mods := GDK_CONTROL_MASK ||| GDK_SHIFT_MASK,
                      name := some "menu_new", label := some "New",
                      cb_func := some .cb_func_file_action }) := by
      decide
    rw [hs]
    rfl

/-- C12, witness: the store `[Bindings] menu_new=<Control><Shift>n`, with the
editor focused. -/
theorem C12_override_end_to_end_witness :
    keybindings_got_event editor_focused
        (load_user_kb example_parse (some [(("Bindings", "menu_new"), "<Control><Shift>n")])
          default_registry)
        { keyval := GDK_n, state := GDK_CONTROL_MASK } = .ok (false, []) ∧
    keybindings_got_event editor_focused
        (load_user_kb example_parse (some [(("Bindings", "menu_new"), "<Control><Shift>n")])
          default_registry)
        { keyval := GDK_N, state := GDK_CONTROL_MASK ||| GDK_SHIFT_MASK } =
      .ok (true, [.cb_func .cb_func_file_action GEANY_KEYS_MENU_NEW]) ∧
    keybindings_got_event editor_focused
        (load_user_kb example_parse (some [(("Bindings", "menu_new"), "<Control><Shift>n")])
          default_registry)
        { keyval := GDK_n, state := GDK_CONTROL_MASK ||| GDK_SHIFT_MASK } =
      .ok (true, [.cb_func .cb_func_file_action GEANY_KEYS_MENU_NEW]) :=
  C12_override_end_to_end example_parse "<Control><Shift>n" editor_focused (by decide)
    (by decide)


/-! ## The writer -/

theorem get_set_string (config : GKeyFile) (group_name : String) (key : Option String)
    (value s k : String) :
    g_key_file_get_string (g_key_file_set_string config group_name key value) s (some k) =
      if group_name = s ∧ key = some k then some value
      else g_key_file_get_string config s (some k) := by
  cases key with
  | none => simp [g_key_file_set_string]
  | some k1 =>
    simp only [g_key_file_set_string, g_key_file_get_string, Option.some.injEq]
    induction config with
    | nil =>
      by_cases h : group_name = s ∧ k1 = k
      · simp [g_key_file_set_string_key, List.find?, h]
      · have h1 : ¬ ((group_name, k1) = (s, k)) := by simpa using h
        simp [g_key_file_set_string_key, List.find?, h, h1]
    | cons e rest ih =>
      unfold g_key_file_set_string_key
      by_cases he : e.1 = (group_name, k1)
      · rw [if_pos he]
        by_cases h : group_name = s ∧ k1 = k
        · simp [List.find?, h]
        · have h1 : ¬ ((group_name, k1) = (s, k)) := by simpa using h
          have h2 : ¬ (e.1 = (s, k)) := by rw [he]; exact h1
          simp [List.find?, h, h1, h2]
      · rw [if_neg he]
        by_cases h2 : e.1 = (s, k)
        · have h : ¬ (group_name = s ∧ k1 = k) := by
            rintro ⟨h3, h4⟩
            subst h3 h4
            exact he h2
          simp [List.find?, h2, h]
        · simp only [List.find?, h2, decide_False]
          exact ih

theorem foreach_keys_set_keyfile_kb (accel_name : Nat → Nat → String)
    (group : KeyBindingGroup) (keys : List KeyBinding) (config : GKeyFile) :
    keybindings_foreach_keys (set_keyfile_kb accel_name) group keys config =
      (keys, (keys.map (fun kb => (group.name, kb.name, accel_name kb.key kb.mods))).foldl
        (fun c w => g_key_file_set_string c w.1 w.2.1 w.2.2) config) := by
  induction keys generalizing config with
  | nil => rfl
  | cons kb rest ih =>
    simp only [keybindings_foreach_keys, set_keyfile_kb, List.map_cons, List.foldl_cons]
    rw [ih]

theorem foreach_set_keyfile_kb (accel_name : Nat → Nat → String) (groups : Registry)
    (config : GKeyFile) :
    keybindings_foreach (set_keyfile_kb accel_name) groups config =
      (groups, (keyfile_writes accel_name groups).foldl
        (fun c w => g_key_file_set_string c w.1 w.2.1 w.2.2) config) := by
  induction groups generalizing config with
  | nil => rfl
  | cons group rest ih =>
    simp only [keybindings_foreach, foreach_keys_set_keyfile_kb, keyfile_writes,
      List.flatMap_cons, List.foldl_append]
    rw [← keyfile_writes, ih]

theorem store_keys_eq_writes (accel_name : Nat → Nat → String) (groups : Registry) :
    store_keys groups = (keyfile_writes accel_name groups).map (fun w => (w.1, w.2.1)) := by
  simp [store_keys, keyfile_writes, List.map_flatMap, Function.comp_def]

theorem get_after_writes_frame (writes : List (String × Option String × String))
    (config : GKeyFile) (s k : String)
    (hnot : (s, some k) ∉ writes.map (fun w => (w.1, w.2.1))) :
    g_key_file_get_string
        (writes.foldl (fun c w => g_key_file_set_string c w.1 w.2.1 w.2.2) config) s (some k) =
      g_key_file_get_string config s (some k) := by
  induction writes generalizing config with
  | nil => rfl
  | cons w rest ih =>
    simp only [List.map_cons, List.mem_cons, not_or] at hnot
    rw [List.foldl_cons, ih _ hnot.2, get_set_string]
    have h : ¬ (w.1 = s ∧ w.2.1 = some k) := by
      rintro ⟨h1, h2⟩
      exact hnot.1 (by rw [← h1, ← h2])
    rw [if_neg h]

theorem write_to_file_store (accel_name : Nat → Nat → String) (file : Option GKeyFile)
    (groups : Registry) :
    keybindings_write_to_file accel_name file groups =
      (groups, (match file with
                | some _ => none
                | none => some keyfile_comment),
       (keyfile_writes accel_name groups).foldl
         (fun c w => g_key_file_set_string c w.1 w.2.1 w.2.2) (file.getD [])) := by
  cases file <;> simp [keybindings_write_to_file, foreach_set_keyfile_kb]

/-- C14. Write path frame: `keybindings_write_to_file` returns the registry it
was given, every field of every group and binding unchanged; and for every
section `s` and key `k` that is not the pair (group name, binding name) of a
binding of the registry, the key file it writes holds under `(s, k)` exactly
what the loaded store held: the same value if there was one, none if there was
none. -/
theorem C14_write_frame (accel_name : Nat → Nat → String) (file : Option GKeyFile)
    (groups : Registry) :
    (keybindings_write_to_file accel_name file groups).1 = groups ∧
    ∀ s k, (s, some k) ∉ store_keys groups →
      g_key_file_get_string (keybindings_write_to_file accel_name file groups).2.2 s
          (some k) =
        g_key_file_get_string (file.getD []) s (some k) := by
  rw [write_to_file_store]
  refine ⟨rfl, ?_⟩
  intro s k hnot
  exact get_after_writes_frame (keyfile_writes accel_name groups) (file.getD []) s k
    (by rw [← store_keys_eq_writes]; exact hnot)

/-- C14, witness: a store that holds a key of a newer version, `menu_export`,
and a foreign section keeps both through a write of the default registry. -/
theorem C14_write_frame_witness :
    g_key_file_get_string
        (keybindings_write_to_file example_accel_name
          (some [(("Bindings", "menu_export"), "<Control>e"), (("Window", "width"), "800")])
          default_registry).2.2 "Bindings" (some "menu_export") = some "<Control>e" ∧
    g_key_file_get_string
        (keybindings_write_to_file example_accel_name
          (some [(("Bindings", "menu_export"), "<Control>e"), (("Window", "width"), "800")])
          default_registry).2.2 "Window" (some "width") = some "800" :=
  ⟨(C14_write_frame example_accel_name
      (some [(("Bindings", "menu_export"), "<Control>e"), (("Window", "width"), "800")])
      default_registry).2 "Bindings" "menu_export" (by decide),
   (C14_write_frame example_accel_name
      (some [(("Bindings", "menu_export"), "<Control>e"), (("Window", "width"), "800")])
      default_registry).2 "Window" "width" (by decide)⟩


/-! ## The lookup facade and `keybindings_send_command` -/

theorem load_user_kb_length (parse : String → Nat × Nat) (file : Option GKeyFile)
    (groups : Registry) : (load_user_kb parse file groups).length = groups.length := by
  cases file <;> simp [load_user_kb, foreach_get_keyfile_kb]

theorem keybindings_init_eq (parse : String → Nat × Nat) (file : Option GKeyFile) :
    keybindings_init parse file = .ok (load_user_kb parse file default_registry) := by
  unfold keybindings_init
  rw [init_default_kb_ok]
  rfl

theorem lookup_item_in_range (groups : Registry) (g i : Nat) (group : KeyBindingGroup)
    (kb : KeyBinding) (hg : g < GEANY_KEYGROUP_COUNT) (hgroup : groups[g]? = some group)
    (hkb : group.keys[i]? = some kb) :
    keybindings_lookup_item groups g i = .ok (some kb) := by
  have hi : i < group.keys.length := (List.getElem?_eq_some_iff.mp hkb).1
  unfold keybindings_lookup_item
  simp [hg, hgroup, KeyBindingGroup.count, hi, hkb]

/-- C15. Lookup facade: on the registry that `keybindings_init` builds, with
any store and parser, `keybindings_lookup_item(g, i)` returns `NULL` when `g`
is not below `GEANY_KEYGROUP_COUNT`; otherwise the `g`-th group exists, and the
result is the binding stored at its index `i` when `i` is below its count and
`NULL` when `i` is not. -/
theorem C15_lookup_item (parse : String → Nat × Nat) (file : Option GKeyFile)
    (groups : Registry) (g i : Nat) (hinit : keybindings_init parse file = .ok groups) :
    (GEANY_KEYGROUP_COUNT ≤ g → keybindings_lookup_item groups g i = .ok none) ∧
    (g < GEANY_KEYGROUP_COUNT → ∃ group, groups[g]? = some group ∧
      (i < group.count → ∃ kb, group.keys[i]? = some kb ∧
        binding_at groups g i = some kb ∧
        keybindings_lookup_item groups g i = .ok (some kb)) ∧
      (group.count ≤ i → keybindings_lookup_item groups g i = .ok none)) := by
  rw [keybindings_init_eq] at hinit
  have hgroups := (Except.ok.inj hinit).symm
  have hlen : groups.length = GEANY_KEYGROUP_COUNT := by
    rw [hgroups, load_user_kb_length]
    decide
  constructor
  · intro hg
    unfold keybindings_lookup_item
    rw [if_pos (by omega)]
  · intro hg
    have hlt : g < groups.length := by omega
    refine ⟨groups[g], List.getElem?_eq_getElem hlt, ?_, ?_⟩
    · intro hi
      have hi1 : i < groups[g].keys.length := hi
      refine ⟨groups[g].keys[i], List.getElem?_eq_getElem hi1, ?_, ?_⟩
      · simp [binding_at, List.getElem?_eq_getElem hlt, List.getElem?_eq_getElem hi1]
      · exact lookup_item_in_range groups g i groups[g] _ hg (List.getElem?_eq_getElem hlt)
          (List.getElem?_eq_getElem hi1)
    · intro hi
      unfold keybindings_lookup_item
      rw [if_neg (by omega), List.getElem?_eq_getElem hlt]
      simp only
      rw [if_pos (by omega)]

/-- C15, witness: without a store, item `GEANY_KEYS_MENU_OPEN` of the File
group is the binding named `menu_open`; command id `GEANY_KEYS_FILE_COUNT` of
that group and group id `GEANY_KEYGROUP_COUNT` give `NULL`. -/
theorem C15_lookup_item_witness :
    keybindings_lookup_item default_registry GEANY_KEYGROUP_FILE GEANY_KEYS_MENU_OPEN =
      .ok (some { key := GDK_o, mods := GDK_CONTROL_MASK, name := some "menu_open",
                  label := some "Open", cb_func := some .cb_func_file_action }) ∧
    keybindings_lookup_item default_registry GEANY_KEYGROUP_FILE GEANY_KEYS_FILE_COUNT =
      .ok none ∧
    (GEANY_KEYGROUP_COUNT ≤ GEANY_KEYGROUP_COUNT →
      keybindings_lookup_item default_registry GEANY_KEYGROUP_COUNT 0 = .ok none) :=
  ⟨by decide, by decide,
   (C15_lookup_item example_parse none default_registry GEANY_KEYGROUP_COUNT 0 rfl).1⟩

/-- C16. `keybindings_send_command` invokes the bound callback: for a group id
`g` below `GEANY_KEYGROUP_COUNT` and a command id `i` (a `gint`) at which the
`g`-th group stores a binding with the callback `f`, `keybindings_send_command`
makes the one call `f(i)` and no other, whatever the chord of the binding is;
it reads no focus state. -/
theorem C16_send_command (groups : Registry) (g i : Nat) (group : KeyBindingGroup)
    (kb : KeyBinding) (f : KBCallback)
    (hg : g < GEANY_KEYGROUP_COUNT) (hi : i < 2147483648)
    (hgroup : groups[g]? = some group) (hkb : group.keys[i]? = some kb)
    (hcb : kb.cb_func = some f) :
    keybindings_send_command groups (g : Int) (i : Int) = .ok [.cb_func f i] := by
  have hg1 : guint_of_gint (g : Int) = g := by
    unfold guint_of_gint
    simp only [GEANY_KEYGROUP_COUNT] at hg
    omega
  have hi1 : guint_of_gint (i : Int) = i := by
    unfold guint_of_gint
    omega
  unfold keybindings_send_command
  rw [hg1, hi1, lookup_item_in_range groups g i group kb hg hgroup hkb]
  simp [hcb]

/-- C16, witness: on the default registry `menu_saveas` is unbound, chord
`(0, 0)`; sending its command calls
`cb_func_file_action(GEANY_KEYS_MENU_SAVEAS)`. -/
theorem C16_send_command_witness :
    keybindings_send_command default_registry (GEANY_KEYGROUP_FILE : Nat)
        (GEANY_KEYS_MENU_SAVEAS : Nat) =
      .ok [.cb_func .cb_func_file_action GEANY_KEYS_MENU_SAVEAS] :=
  C16_send_command default_registry GEANY_KEYGROUP_FILE GEANY_KEYS_MENU_SAVEAS
    (default_registry.headD (add_kb_group "" "" 0))
    { key := 0, mods := 0, name := some "menu_saveas", label := some "Save as",
      cb_func := some .cb_func_file_action }
    .cb_func_file_action (by decide) (by decide) (by decide) (by decide) rfl

/-- C17. `keybindings_send_command` on a binding without callback: for a valid
group id and command id whose binding has no callback,
`keybindings_send_command` calls through the `NULL` function pointer, a fault,
where `keybindings_got_event` tests `kb->cb_func == NULL` first.  On the default
registry this is `keybindings_send_command(GEANY_KEYGROUP_TAGS,
GEANY_KEYS_EDIT_COMPLETESNIPPET)`. -/
theorem C17_send_command_null_callback :
    (∀ (groups : Registry) (g i : Nat) (group : KeyBindingGroup) (kb : KeyBinding),
      g < GEANY_KEYGROUP_COUNT → i < 2147483648 → groups[g]? = some group →
      group.keys[i]? = some kb → kb.cb_func = none →
      keybindings_send_command groups (g : Int) (i : Int) = .error .null_dereference) ∧
    binding_at default_registry GEANY_KEYGROUP_TAGS GEANY_KEYS_EDIT_COMPLETESNIPPET =
      some { key := GDK_Tab, mods := 0, name := some "edit_completesnippet",
             label := some "Complete snippet", cb_func := none } ∧
    keybindings_send_command default_registry (GEANY_KEYGROUP_TAGS : Nat)
        (GEANY_KEYS_EDIT_COMPLETESNIPPET : Nat) = .error .null_dereference := by
  refine ⟨?_, by decide, by decide⟩
  intro groups g i group kb hg hi hgroup hkb hcb
  have hg1 : guint_of_gint (g : Int) = g := by
    unfold guint_of_gint
    simp only [GEANY_KEYGROUP_COUNT] at hg
    omega
  have hi1 : guint_of_gint (i : Int) = i := by
    unfold guint_of_gint
    omega
  unfold keybindings_send_command
  rw [hg1, hi1, lookup_item_in_range groups g i group kb hg hgroup hkb]
  simp [hcb]

/-! ## The fixed bindings -/

theorem mem_of_binding_at (groups : Registry) (g i : Nat) (kb : KeyBinding)
    (h : binding_at groups g i = some kb) : ∃ group ∈ groups, kb ∈ group.keys := by
  unfold binding_at at h
  cases hg : groups[g]? with
  | none => rw [hg] at h; cases h
  | some group =>
    rw [hg] at h
    exact ⟨group, List.getElem?_mem hg, List.getElem?_mem h⟩

theorem got_event_fixed_stage (a : Ambient) (groups : Registry) (ev : GdkEventKey)
    (hkey : ev.keyval ≠ 0) (hvte : vte_declines a groups ev)
    (hnone : ∀ group ∈ groups, ∀ kb ∈ group.keys,
      ¬ has_chord kb (normalised_keyval ev) (normalised_state ev)) :
    keybindings_got_event a groups ev =
      .ok (check_fixed_kb a (normalised_keyval ev) (normalised_state ev)) := by
  have hs : scan_groups (normalised_keyval ev) (normalised_state ev) groups 0 = none := by
    rw [scan_groups_none_iff]
    intro g i kb hb
    obtain ⟨group, hgroup, hkb⟩ := mem_of_binding_at groups g i kb hb
    exact hnone group hgroup kb hkb
  rw [got_event_after_vte a groups ev hkey hvte, hs]

theorem check_fixed_kb_digit (a : Ambient) (d state : Nat) (hd : d ≤ 9)
    (halt : state &&& GDK_MOD1_MASK ≠ 0) :
    check_fixed_kb a (GDK_0 + d) state =
      (true, [.notebook_set_current_page (if d = 0 then a.npages - 1 else (d : Int) - 1)]) := by
  unfold check_fixed_kb
  have h1 : state &&& GDK_MOD1_MASK ≠ 0 ∧ GDK_0 + d ≥ GDK_0 ∧ GDK_0 + d ≤ GDK_9 := by
    refine ⟨halt, by omega, ?_⟩
    simp only [GDK_0, GDK_9]
    omega
  rw [if_pos h1]
  by_cases h0 : d = 0
  · subst h0
    simp [swap_alt_tab_order]
  · have h2 : GDK_0 + d ≠ GDK_0 := by omega
    simp only [h2, h0, if_false, swap_alt_tab_order, Bool.false_eq_true, false_and]
    simp

/-- C18. Alt+digit tab selection: for an event with Alt set whose key is the
digit `d` (`GDK_0 + d`, `d` from 0 to 9), the fixed-binding stage,
`check_fixed_kb` on the normalised key and state, returns `TRUE` and requests
notebook page `d - 1` for `d` from 1 to 9 and page `npages - 1` for `d = 0`; and
when the event reaches that stage (non-zero key, not claimed by the terminal
stage, no binding with its chord) this is the result of
`keybindings_got_event`. -/
theorem C18_alt_digit_selects_tab (a : Ambient) (groups : Registry) (ev : GdkEventKey)
    (d : Nat) (hd : d ≤ 9) (hkey : ev.keyval = GDK_0 + d)
    (halt : ev.state &&& GDK_MOD1_MASK ≠ 0) (hvte : vte_declines a groups ev)
    (hnone : ∀ group ∈ groups, ∀ kb ∈ group.keys,
      ¬ has_chord kb (normalised_keyval ev) (normalised_state ev)) :
    check_fixed_kb a (normalised_keyval ev) (normalised_state ev) =
      (true, [.notebook_set_current_page (if d = 0 then a.npages - 1 else (d : Int) - 1)]) ∧
    keybindings_got_event a groups ev =
      .ok (true,
        [.notebook_set_current_page (if d = 0 then a.npages - 1 else (d : Int) - 1)]) := by
  have hkv : normalised_keyval ev = GDK_0 + d := by
    unfold normalised_keyval
    rw [if_neg, hkey]
    rintro ⟨_, h1, _⟩
    rw [hkey] at h1
    simp only [GDK_0, GDK_A] at h1
    omega
  have hst : normalised_state ev &&& GDK_MOD1_MASK ≠ 0 := by
    have : normalised_state ev &&& GDK_MOD1_MASK = ev.state &&& GDK_MOD1_MASK := by
      unfold normalised_state
      rw [Nat.land_assoc]
      rfl
    rw [this]
    exact halt
  have hfixed := check_fixed_kb_digit a d (normalised_state ev) hd hst
  rw [← hkv] at hfixed
  have hne : ev.keyval ≠ 0 := by
    rw [hkey]
    simp only [GDK_0]
    omega
  exact ⟨hfixed, by rw [got_event_fixed_stage a groups ev hne hvte hnone, hfixed]⟩

/-- C18, witness: with 4 tabs, Alt+0 selects page 3 and Alt+3 selects page 2
on the default registry. -/
theorem C18_alt_digit_selects_tab_witness :
    editor_focused.npages = 4 ∧
    keybindings_got_event editor_focused default_registry
        { keyval := GDK_0, state := GDK_MOD1_MASK } =
      .ok (true, [.notebook_set_current_page 3]) ∧
    keybindings_got_event editor_focused default_registry
        { keyval := GDK_3, state := GDK_MOD1_MASK } =
      .ok (true, [.notebook_set_current_page 2]) :=
  ⟨rfl,
   (C18_alt_digit_selects_tab editor_focused default_registry
      { keyval := GDK_0, state := GDK_MOD1_MASK } 0 (by decide) rfl (by decide)
      (Or.inr (by decide)) (by decide)).2,
   (C18_alt_digit_selects_tab editor_focused default_registry
      { keyval := GDK_3, state := GDK_MOD1_MASK } 3 (by decide) rfl (by decide)
      (Or.inr (by decide)) (by decide)).2⟩

/-- C19 (amended). The tab-order setting does not affect Alt+digit:
`swap_alt_tab_order` is `FALSE`, so for every key and state `check_fixed_kb`
returns the same value and requests the same page whatever
`prefs.tab_order_ltr` is. -/
theorem C19_tab_order_ignored (a : Ambient) (ltr : Bool) (keyval state : Nat) :
    swap_alt_tab_order = false ∧
    check_fixed_kb { a with tab_order_ltr := ltr } keyval state =
      check_fixed_kb a keyval state := by
  refine ⟨rfl, ?_⟩
  unfold check_fixed_kb
  simp [swap_alt_tab_order]

/-- C19, refutation of the claim as stated: there are no ambient state, key and
state for which `check_fixed_kb` gives a different result with
`prefs.tab_order_ltr` false than with it true. -/
theorem C19_counterexample :
    ¬ ∃ (a : Ambient) (keyval state : Nat),
      check_fixed_kb { a with tab_order_ltr := false } keyval state ≠
        check_fixed_kb { a with tab_order_ltr := true } keyval state := by
  rintro ⟨a, keyval, state, h⟩
  apply h
  unfold check_fixed_kb
  simp [swap_alt_tab_order]

/-- C20. First/last tab jump: with modifiers exactly Control+Shift,
`check_fixed_kb` returns `TRUE` and requests page 0 for PageUp and page
`npages - 1` for PageDown; with any other modifiers it returns `FALSE` for
PageUp and PageDown and requests no page; and for an event that reaches the
fixed-binding stage (non-zero key, not claimed by the terminal stage, no
binding with its chord) the result of `check_fixed_kb` on the normalised key
and state is the result of `keybindings_got_event`. -/
theorem C20_first_last_tab (a : Ambient) (state : Nat) :
    check_fixed_kb a GDK_Page_Up (GDK_CONTROL_MASK ||| GDK_SHIFT_MASK) =
      (true, [.notebook_set_current_page 0]) ∧
    check_fixed_kb a GDK_Page_Down (GDK_CONTROL_MASK ||| GDK_SHIFT_MASK) =
      (true, [.notebook_set_current_page (a.npages - 1)]) ∧
    (state ≠ (GDK_CONTROL_MASK ||| GDK_SHIFT_MASK) →
      check_fixed_kb a GDK_Page_Up state = (false, []) ∧
      check_fixed_kb a GDK_Page_Down state = (false, [])) ∧
    (∀ (groups : Registry) (ev : GdkEventKey), ev.keyval ≠ 0 → vte_declines a groups ev →
      (∀ group ∈ groups, ∀ kb ∈ group.keys,
        ¬ has_chord kb (normalised_keyval ev) (normalised_state ev)) →
      keybindings_got_event a groups ev =
        .ok (check_fixed_kb a (normalised_keyval ev) (normalised_state ev))) := by
  refine ⟨rfl, rfl, ?_, fun groups ev => got_event_fixed_stage a groups ev⟩
  intro hstate
  have hup : ¬ (state &&& GDK_MOD1_MASK ≠ 0 ∧ GDK_Page_Up ≥ GDK_0 ∧ GDK_Page_Up ≤ GDK_9) := by
    rintro ⟨_, _, h⟩
    exact absurd h (by decide)
  have hdown : ¬ (state &&& GDK_MOD1_MASK ≠ 0 ∧ GDK_Page_Down ≥ GDK_0 ∧
      GDK_Page_Down ≤ GDK_9) := by
    rintro ⟨_, _, h⟩
    exact absurd h (by decide)
  constructor
  · unfold check_fixed_kb
    rw [if_neg hup, if_pos (Or.inl rfl), if_neg hstate]
  · unfold check_fixed_kb
    rw [if_neg hdown, if_pos (Or.inr rfl), if_neg hstate]

/-- C20, witness: with 4 tabs, Control+Shift+PageDown reaches the fixed
bindings on the default registry and selects page 3; Control+Alt+PageDown is
not a fixed binding. -/
theorem C20_first_last_tab_witness :
    keybindings_got_event editor_focused default_registry
        { keyval := GDK_Page_Down, state := GDK_CONTROL_MASK ||| GDK_SHIFT_MASK } =
      .ok (true, [.notebook_set_current_page 3]) ∧
    check_fixed_kb editor_focused GDK_Page_Down (GDK_CONTROL_MASK ||| GDK_MOD1_MASK) =
      (false, []) :=
  ⟨((C20_first_last_tab editor_focused 0).2.2.2 default_registry
      { keyval := GDK_Page_Down, state := GDK_CONTROL_MASK ||| GDK_SHIFT_MASK }
      (by decide) (Or.inr (by decide)) (by decide)).trans (by decide),
   ((C20_first_last_tab editor_focused (GDK_CONTROL_MASK ||| GDK_MOD1_MASK)).2.2.1
      (by decide)).2⟩


/-! ## Filling a slot -/

/-- C21. `add_kb` bounds: when the command id is not below `group->count` the
assertion of `add_kb` fails and no group results; when it is below, `add_kb`
gives the group whose slot at the command id holds the given key, mods, name,
label and callback, whose every other slot is as before, and whose name, label
and count are as before. -/
theorem C21_add_kb_bounds (group : KeyBindingGroup) (kb_id : Nat) (func : Option KBCallback)
    (key mod : Nat) (name label : String) :
    (group.count ≤ kb_id →
      add_kb group kb_id func key mod name label = .error .assertion_failed) ∧
    (kb_id < group.count →
      ∃ group1, add_kb group kb_id func key mod name label = .ok group1 ∧
        group1.keys[kb_id]? =
          some { key := key, mods := mod, name := some name, label := some label,
                 cb_func := func } ∧
        (∀ j : Nat, j ≠ kb_id → group1.keys[j]? = group.keys[j]?) ∧
        group1.name = group.name ∧ group1.label = group.label ∧
        group1.count = group.count) := by
  constructor
  · intro h
    unfold add_kb
    rw [if_neg (by omega)]
  · intro h
    unfold add_kb
    rw [if_pos h]
    refine ⟨_, rfl, ?_, ?_, rfl, rfl, ?_⟩
    · have h1 : kb_id < group.keys.length := h
      simp [h1]
    · intro j hj
      simp [List.getElem?_set, Ne.symm hj]
    · simp [KeyBindingGroup.count]

/-- C21, witness: on the group that `ADD_KB_GROUP` makes for the Help menu, of
count 1, command id 1 fails the assertion and command id 0 fills the slot. -/
theorem C21_add_kb_bounds_witness :
    add_kb (ADD_KB_GROUP "Help menu" GEANY_KEYS_HELP_COUNT) 1 (some .cb_func_menu_help)
        GDK_F1 0 "menu_help" "Help" = .error .assertion_failed ∧
    ∃ group1,
      add_kb (ADD_KB_GROUP "Help menu" GEANY_KEYS_HELP_COUNT) GEANY_KEYS_MENU_HELP
        (some .cb_func_menu_help) GDK_F1 0 "menu_help" "Help" = .ok group1 ∧
      group1.keys[GEANY_KEYS_MENU_HELP]? =
        some { key := GDK_F1, mods := 0, name := some "menu_help", label := some "Help",
               cb_func := some .cb_func_menu_help } ∧
      (∀ j : Nat, j ≠ GEANY_KEYS_MENU_HELP →
        group1.keys[j]? = (ADD_KB_GROUP "Help menu" GEANY_KEYS_HELP_COUNT).keys[j]?) ∧
      group1.name = (ADD_KB_GROUP "Help menu" GEANY_KEYS_HELP_COUNT).name ∧
      group1.label = (ADD_KB_GROUP "Help menu" GEANY_KEYS_HELP_COUNT).label ∧
      group1.count = (ADD_KB_GROUP "Help menu" GEANY_KEYS_HELP_COUNT).count :=
  ⟨(C21_add_kb_bounds (ADD_KB_GROUP "Help menu" GEANY_KEYS_HELP_COUNT) 1
      (some .cb_func_menu_help) GDK_F1 0 "menu_help" "Help").1 (by decide),
   (C21_add_kb_bounds (ADD_KB_GROUP "Help menu" GEANY_KEYS_HELP_COUNT) GEANY_KEYS_MENU_HELP
      (some .cb_func_menu_help) GDK_F1 0 "menu_help" "Help").2 (by decide)⟩

/-! ## Facts of the default table -/

/-- C22. Exactly one default without callback: in the registry built by
`init_default_kb` the bindings without callback are exactly one, the entry
`edit_completesnippet` at index `GEANY_KEYS_EDIT_COMPLETESNIPPET` of the Tags
group, with chord Tab and no modifiers; each of the other 99 bindings has a
callback. -/
theorem C22_one_default_without_callback :
    init_default_kb = .ok default_registry ∧
    (all_bindings default_registry).length = 100 ∧
    binding_at default_registry GEANY_KEYGROUP_TAGS GEANY_KEYS_EDIT_COMPLETESNIPPET =
      some { key := GDK_Tab, mods := 0, name := some "edit_completesnippet",
             label := some "Complete snippet", cb_func := none } ∧
    (all_bindings default_registry).filter (fun kb => decide (kb.cb_func = none)) =
      [{ key := GDK_Tab, mods := 0, name := some "edit_completesnippet",
         label := some "Complete snippet", cb_func := none }] ∧
    (∀ kb ∈ all_bindings default_registry,
      kb.name ≠ some "edit_completesnippet" → kb.cb_func ≠ none) := by
  decide

/-- C25. Flat persistence namespace without collision: in the registry built
by `init_default_kb` every group has the name `Bindings`, every binding has a
name, the binding names are pairwise distinct across all groups, and so are
the pairs (group name, binding name) under which `get_keyfile_kb` reads and
`set_keyfile_kb` writes. -/
theorem C25_flat_namespace_collision_free :
    init_default_kb = .ok default_registry ∧
    (∀ group ∈ default_registry, group.name = "Bindings") ∧
    (∀ kb ∈ all_bindings default_registry, kb.name ≠ none) ∧
    ((all_bindings default_registry).map (fun kb => kb.name)).Nodup ∧
    (store_keys default_registry).Nodup := by
  decide

/-- C26. Alt+digit matches on the Alt bit alone and is not range-checked: for
every state with the Alt bit set, whatever other bits it has, every digit key
`GDK_0 + d` with `d` from 0 to 9 and every tab count, `check_fixed_kb` returns
`TRUE` and requests page `d - 1`, or `npages - 1` for the digit 0, also when
that index is negative or not below the tab count. -/
theorem C26_alt_digit_unchecked (a : Ambient) (d state : Nat) (hd : d ≤ 9)
    (halt : state &&& GDK_MOD1_MASK ≠ 0) :
    check_fixed_kb a (GDK_0 + d) state =
      (true, [.notebook_set_current_page (if d = 0 then a.npages - 1 else (d : Int) - 1)]) :=
  check_fixed_kb_digit a d state hd halt

/-- C26, witness: with all four modifiers set and no tab open, the digit 0
requests page -1; with Control+Alt and two tabs, the digit 9 requests page 8. -/
theorem C26_alt_digit_unchecked_witness :
    check_fixed_kb { editor_focused with npages := 0 } GDK_0
        (GDK_CONTROL_MASK ||| GDK_SHIFT_MASK ||| GDK_MOD1_MASK ||| GDK_LOCK_MASK) =
      (true, [.notebook_set_current_page (-1)]) ∧
    check_fixed_kb { editor_focused with npages := 2 } GDK_9
        (GDK_CONTROL_MASK ||| GDK_MOD1_MASK) =
      (true, [.notebook_set_current_page 8]) :=
  ⟨C26_alt_digit_unchecked { editor_focused with npages := 0 } 0
      (GDK_CONTROL_MASK ||| GDK_SHIFT_MASK ||| GDK_MOD1_MASK ||| GDK_LOCK_MASK)
      (by decide) (by decide),
   C26_alt_digit_unchecked { editor_focused with npages := 2 } 9
      (GDK_CONTROL_MASK ||| GDK_MOD1_MASK) (by decide) (by decide)⟩


theorem binding_at_default_range (g i : Nat) (kb : KeyBinding)
    (h : binding_at default_registry g i = some kb) :
    g ∈ List.range 13 ∧ i ∈ List.range 30 := by
  unfold binding_at at h
  cases hg : default_registry[g]? with
  | none => rw [hg] at h; cases h
  | some group =>
    rw [hg] at h
    have hglen : g < default_registry.length := (List.getElem?_eq_some_iff.mp hg).1
    have hilen : i < group.keys.length := (List.getElem?_eq_some_iff.mp h).1
    have hall : ∀ group ∈ default_registry, group.keys.length ≤ 30 := by decide
    have h30 := hall group (List.getElem?_mem hg)
    have h13 : default_registry.length = 13 := by decide
    simp only [List.mem_range]
    omega

theorem default_bound_is_first_match (g i : Nat) (kb : KeyBinding)
    (h : binding_at default_registry g i = some kb) (hkey : kb.key ≠ 0) :
    scan_groups kb.key kb.mods default_registry 0 = some (g, i, kb) := by
  have hall : ∀ g ∈ List.range 13, ∀ i ∈ List.range 30,
      bound_is_first_match default_registry g i = true := by decide
  obtain ⟨hg, hi⟩ := binding_at_default_range g i kb h
  have hb := hall g hg i hi
  unfold bound_is_first_match at hb
  rw [h] at hb
  simp only [decide_eq_true_eq] at hb
  rcases hb with hb | hb
  · exact absurd hb hkey
  · exact hb

/-- C23. No default chord conflict: in the registry built by `init_default_kb`,
two bindings with the same non-zero key and the same mods are stored at the
same position; and every binding with a non-zero key is the first binding in
declaration order with its chord, the one that the registry scan selects for
it. -/
theorem C23_no_default_chord_conflict (g1 i1 g2 i2 : Nat) (kb1 kb2 : KeyBinding)
    (h1 : binding_at default_registry g1 i1 = some kb1)
    (h2 : binding_at default_registry g2 i2 = some kb2)
    (hkey : kb1.key ≠ 0) (hsame : kb1.key = kb2.key ∧ kb1.mods = kb2.mods) :
    (g1 = g2 ∧ i1 = i2) ∧ FirstMatch default_registry kb1.key kb1.mods g1 i1 kb1 := by
  have hs1 := default_bound_is_first_match g1 i1 kb1 h1 hkey
  have hs2 := default_bound_is_first_match g2 i2 kb2 h2 (by rw [← hsame.1]; exact hkey)
  rw [← hsame.1, ← hsame.2, hs1] at hs2
  simp only [Option.some.injEq, Prod.mk.injEq] at hs2
  exact ⟨⟨hs2.1, hs2.2.1⟩, first_match_of_scan_groups _ _ _ _ _ _ hs1⟩

/-- C23, witness: the chords of the bindings with a non-zero key are pairwise
distinct, and `menu_open` is the first match of its chord Control+o. -/
theorem C23_no_default_chord_conflict_witness :
    (all_bindings default_registry).length = 100 ∧
    (((all_bindings default_registry).filter (fun kb => decide (kb.key ≠ 0))).map
      (fun kb => (kb.key, kb.mods))).Nodup ∧
    FirstMatch default_registry GDK_o GDK_CONTROL_MASK GEANY_KEYGROUP_FILE GEANY_KEYS_MENU_OPEN
      { key := GDK_o, mods := GDK_CONTROL_MASK, name := some "menu_open",
        label := some "Open", cb_func := some .cb_func_file_action } :=
  ⟨by decide, by decide,
   (C23_no_default_chord_conflict GEANY_KEYGROUP_FILE GEANY_KEYS_MENU_OPEN
      GEANY_KEYGROUP_FILE GEANY_KEYS_MENU_OPEN
      { key := GDK_o, mods := GDK_CONTROL_MASK, name := some "menu_open",
        label := some "Open", cb_func := some .cb_func_file_action }
      { key := GDK_o, mods := GDK_CONTROL_MASK, name := some "menu_open",
        label := some "Open", cb_func := some .cb_func_file_action }
      (by decide) (by decide) (by decide) ⟨rfl, rfl⟩).2⟩


/-! ## Bindings that no event reaches -/

theorem land_ne_zero_of_masked (s m c : Nat) (h : (s &&& m) &&& c ≠ 0) : s &&& c ≠ 0 := by
  intro h0
  apply h
  rw [Nat.land_assoc, Nat.land_comm m c, ← Nat.land_assoc, h0]
  simp

theorem normalised_chord_not_upper_shift (ev : GdkEventKey)
    (hupper : GDK_A ≤ normalised_keyval ev ∧ normalised_keyval ev ≤ GDK_Z)
    (hshift : normalised_state ev &&& GDK_SHIFT_MASK ≠ 0) : False := by
  have hraw : ev.state &&& GDK_SHIFT_MASK ≠ 0 :=
    land_ne_zero_of_masked ev.state GEANY_KEYS_MODIFIER_MASK GDK_SHIFT_MASK hshift
  unfold normalised_keyval at hupper
  by_cases hk : ev.keyval ≥ GDK_A ∧ ev.keyval ≤ GDK_Z
  · rw [if_pos ⟨Or.inl hraw, hk⟩] at hupper
    simp only [GDK_a, GDK_A, GDK_Z] at hupper hk
    omega
  · rw [if_neg (fun h => hk h.2)] at hupper
    exact hk hupper

theorem got_event_callback_origin (a : Ambient) (groups : Registry) (ev : GdkEventKey)
    (r : Bool × List Action) (f : KBCallback) (i : Nat)
    (hr : keybindings_got_event a groups ev = .ok r) (hmem : Action.cb_func f i ∈ r.2) :
    ∃ g kb, scan_groups (normalised_keyval ev) (normalised_state ev) groups 0 =
        some (g, i, kb) ∧ kb.cb_func = some f := by
  by_cases hkey : ev.keyval = 0
  · simp [keybindings_got_event, hkey] at hr
    subst hr
    simp at hmem
  · by_cases hv : vte_declines a groups ev
    · rw [got_event_after_vte a groups ev hkey hv] at hr
      cases hs : scan_groups (normalised_keyval ev) (normalised_state ev) groups 0 with
      | none =>
        rw [hs] at hr
        simp only [Except.ok.injEq] at hr
        subst hr
        exact absurd hmem (check_fixed_kb_calls a _ _ f i)
      | some hit =>
        obtain ⟨g, j, kb⟩ := hit
        rw [hs] at hr
        cases hcb : kb.cb_func with
        | none =>
          simp only [hcb, Except.ok.injEq] at hr
          subst hr
          simp at hmem
        | some f1 =>
          simp only [hcb, Except.ok.injEq] at hr
          subst hr
          simp only [List.mem_singleton, Action.cb_func.injEq] at hmem
          obtain ⟨hf, hi⟩ := hmem
          subst hf hi
          exact ⟨g, kb, rfl, hcb⟩
    · have hv1 : a.have_vte = true := by
        cases h : a.have_vte
        · exact absurd (Or.inl h) hv
        · rfl
      unfold keybindings_got_event at hr
      simp only [hkey, if_false, hv1, if_true] at hr
      cases hc : check_vte a groups (normalised_state ev) (normalised_keyval ev) with
      | error e =>
        rw [hc] at hr
        cases hr
      | ok p =>
        rcases check_vte_result a groups _ _ p hc with hp | hp
        · subst hp
          exact absurd (Or.inr hc) hv
        · subst hp
          rw [hc] at hr
          simp only [Except.ok.injEq] at hr
          subst hr
          simp at hmem

/-- C24. Uppercase-with-Shift bindings are unreachable: in every registry and
for every key event, the binding that the registry scan of
`keybindings_got_event` selects does not have a key in `A..Z` together with
mods that include Shift; and on the default registry no key event, in any
ambient state, makes `keybindings_got_event` call
`cb_func_file_action(GEANY_KEYS_MENU_SAVEALL)`, the binding `menu_saveall`
having the chord `S` with Shift+Control. -/
theorem C24_upper_shift_unreachable (a : Ambient) (ev : GdkEventKey) :
    (∀ (groups : Registry) (g i : Nat) (kb : KeyBinding),
      scan_groups (normalised_keyval ev) (normalised_state ev) groups 0 = some (g, i, kb) →
      ¬ ((GDK_A ≤ kb.key ∧ kb.key ≤ GDK_Z) ∧ kb.mods &&& GDK_SHIFT_MASK ≠ 0)) ∧
    binding_at default_registry GEANY_KEYGROUP_FILE GEANY_KEYS_MENU_SAVEALL =
      some { key := GDK_S, mods := GDK_SHIFT_MASK ||| GDK_CONTROL_MASK,
             name := some "menu_saveall", label := some "Save all",
             cb_func := some .cb_func_file_action } ∧
    (∀ r, keybindings_got_event a default_registry ev = .ok r →
      Action.cb_func .cb_func_file_action GEANY_KEYS_MENU_SAVEALL ∉ r.2) := by
  have hgen : ∀ (groups : Registry) (g i : Nat) (kb : KeyBinding),
      scan_groups (normalised_keyval ev) (normalised_state ev) groups 0 = some (g, i, kb) →
      ¬ ((GDK_A ≤ kb.key ∧ kb.key ≤ GDK_Z) ∧ kb.mods &&& GDK_SHIFT_MASK ≠ 0) := by
    intro groups g i kb hs
    have hfm := first_match_of_scan_groups _ _ groups g i kb hs
    rw [hfm.2.1.1, hfm.2.1.2]
    rintro ⟨hupper, hshift⟩
    exact normalised_chord_not_upper_shift ev hupper hshift
  refine ⟨hgen, by decide, ?_⟩
  intro r hr hmem
  obtain ⟨g, kb, hs, hcb⟩ := got_event_callback_origin a default_registry ev r _ _ hr hmem
  have hfm := first_match_of_scan_groups _ _ default_registry g _ kb hs
  have hat := hfm.1
  obtain ⟨group, hgroup, _⟩ := mem_of_binding_at default_registry g _ kb hat
  have hall : ∀ group ∈ default_registry, ∀ kb ∈ group.keys,
      kb.cb_func = some .cb_func_file_action → group.keys[GEANY_KEYS_MENU_SAVEALL]? = some kb →
      kb.key = GDK_S ∧ kb.mods = (GDK_SHIFT_MASK ||| GDK_CONTROL_MASK) := by decide
  unfold binding_at at hat
  cases hg : default_registry[g]? with
  | none => rw [hg] at hat; cases hat
  | some group1 =>
    rw [hg] at hat
    have hk := hall group1 (List.getElem?_mem hg) kb (List.getElem?_mem hat) hcb hat
    apply hgen default_registry g _ kb hs
    rw [hk.1, hk.2]
    decide

/-- C24, witness: Shift+Control with `S`, as GDK reports the key with Shift
held, is folded to `s` and matches nothing on the default registry: the event
is declined and `menu_saveall` is not reached. -/
theorem C24_upper_shift_unreachable_witness :
    keybindings_got_event editor_focused default_registry
        { keyval := GDK_S, state := GDK_SHIFT_MASK ||| GDK_CONTROL_MASK } = .ok (false, []) ∧
    Action.cb_func .cb_func_file_action GEANY_KEYS_MENU_SAVEALL ∉
      ((false, []) : Bool × List Action).2 :=
  ⟨by decide,
   (C24_upper_shift_unreachable editor_focused
      { keyval := GDK_S, state := GDK_SHIFT_MASK ||| GDK_CONTROL_MASK }).2.2 (false, [])
      (by decide)⟩

end Keybindings
